import Mathlib

/-!
# kuma: WebSocket upgrade handshake and TcpSocket state machine

A shallow embedding of `src/ws/WSConnection_v1.cpp` and `src/TcpSocket.cpp`.

* `std::string` is `String`; header collections are association lists.
* Calls into collaborators whose result the code branches on (the HTTP stream's
  `sendResponse`, the OS socket calls, the TLS handler) take that result as an
  explicit argument, so that every outcome is covered by quantifying over it.
* Calls the code makes on its collaborators are recorded in the state
  (`responses`, `closed`, a trace of effects), so that what was emitted can be
  stated.
-/

namespace kuma

/-! ## SHA-1 and base64 (the primitives behind `generate_sec_accept_value`) -/

/-- Rotate a 32-bit word left by `n` bits. -/
def rotl32 (x n : Nat) : Nat := ((x <<< n) ||| (x >>> (32 - n))) % 2 ^ 32

/-- Big-endian value of a list of bytes. -/
def be32 (b : List Nat) : Nat := b.foldl (fun acc x => acc * 256 + x) 0

/-- The `k` low bytes of `n`, most significant first. -/
def toBE (n k : Nat) : List Nat :=
  (List.range k).map (fun i => (n >>> (8 * (k - 1 - i))) % 256)

/-- SHA-1 padding: a 0x80 byte, zeros up to 56 mod 64, then the bit length on 8 bytes. -/
def sha1Pad (msg : List Nat) : List Nat :=
  let l := msg.length
  msg ++ [128] ++ List.replicate ((119 - l % 64) % 64) 0 ++ toBE (8 * l) 8

/-- Cut a byte list into `n` blocks of 64 bytes. -/
def sha1Blocks : Nat → List Nat → List (List Nat)
  | 0, _ => []
  | n + 1, bs => bs.take 64 :: sha1Blocks n (bs.drop 64)

/-- The sixteen big-endian words of a block. -/
def words16 (blk : List Nat) : List Nat :=
  (List.range 16).map (fun i => be32 ((blk.drop (4 * i)).take 4))

/-- Message schedule: the sixteen words extended to eighty. -/
def sha1Expand (w : List Nat) : List Nat :=
  (List.range 64).foldl
    (fun acc i =>
      let t := i + 16
      acc ++ [rotl32 (acc.getD (t - 3) 0 ^^^ acc.getD (t - 8) 0 ^^^
                      acc.getD (t - 14) 0 ^^^ acc.getD (t - 16) 0) 1])
    w

/-- The five 32-bit chaining words of SHA-1. -/
structure Sha1State where
  a : Nat
  b : Nat
  c : Nat
  d : Nat
  e : Nat
deriving DecidableEq, Repr

/-- One of the eighty rounds. -/
def sha1Round (h : Sha1State) (t w : Nat) : Sha1State :=
  let m := 2 ^ 32
  let nb := (m - 1) ^^^ h.b
  let fk : Nat × Nat :=
    if t < 20 then ((h.b &&& h.c) ||| (nb &&& h.d), 0x5A827999)
    else if t < 40 then (h.b ^^^ h.c ^^^ h.d, 0x6ED9EBA1)
    else if t < 60 then ((h.b &&& h.c) ||| (h.b &&& h.d) ||| (h.c &&& h.d), 0x8F1BBCDC)
    else (h.b ^^^ h.c ^^^ h.d, 0xCA62C1D6)
  ⟨(rotl32 h.a 5 + fk.1 + h.e + fk.2 + w) % m, h.a, rotl32 h.b 30, h.c, h.d⟩

/-- All rounds over the schedule, `t` being the index of the next round. -/
def sha1Rounds (h : Sha1State) (t : Nat) : List Nat → Sha1State
  | [] => h
  | w :: ws => sha1Rounds (sha1Round h t w) (t + 1) ws

/-- Compression of one block into the chaining state. -/
def sha1Block (h : Sha1State) (blk : List Nat) : Sha1State :=
  let r := sha1Rounds h 0 (sha1Expand (words16 blk))
  let m := 2 ^ 32
  ⟨(h.a + r.a) % m, (h.b + r.b) % m, (h.c + r.c) % m, (h.d + r.d) % m, (h.e + r.e) % m⟩

/-- Modelled from the spec: the SHA-1 primitive (`SHA1` of OpenSSL, or `sha1::calc`
of `sha1/sha1.cpp`), which is not part of the sources at hand; this is the
function of RFC 3174 on a list of bytes, giving the 20 digest bytes. -/
def SHA1 (msg : List Nat) : List Nat :=
  let p := sha1Pad msg
  let h := (sha1Blocks (p.length / 64) p).foldl sha1Block
    ⟨0x67452301, 0xEFCDAB89, 0x98BADCFE, 0x10325476, 0xC3D2E1F0⟩
  toBE h.a 4 ++ toBE h.b 4 ++ toBE h.c 4 ++ toBE h.d 4 ++ toBE h.e 4

/-- The base64 alphabet. -/
def x64_chars : List Char :=
  "ABCDEFGHIJKLMNOPQRSTUVWXYZabcdefghijklmnopqrstuvwxyz0123456789+/".toList

/-- The base64 digit of a 6-bit value. -/
def x64_digit (n : Nat) : Char := x64_chars.getD n 'A'

/-- Modelled from the spec: `x64_encode` of `util/base64.h` (not part of the
sources at hand), called with its last argument `false`: standard base64 with
padding, RFC 4648. -/
def x64_encode : List Nat → List Char
  | a :: b :: c :: rest =>
      let n := a * 65536 + b * 256 + c
      x64_digit (n / 262144) :: x64_digit (n / 4096 % 64) :: x64_digit (n / 64 % 64) ::
        x64_digit (n % 64) :: x64_encode rest
  | [a, b] =>
      let n := a * 65536 + b * 256
      [x64_digit (n / 262144), x64_digit (n / 4096 % 64), x64_digit (n / 64 % 64), '=']
  | [a] =>
      let n := a * 65536
      [x64_digit (n / 262144), x64_digit (n / 4096 % 64), '=', '=']
  | [] => []

/-- The test `std::string::empty`. -/
def empty (s : String) : Bool := s.toList.isEmpty

/-- The bytes of a `std::string` (the header values here are ASCII). -/
def strBytes (s : String) : List Nat := s.toList.map Char.toNat

/-- The spec's `base64(SHA1(k ++ guid))`, written from its words. -/
def base64_sha1 (s : String) : String := String.mk (x64_encode (SHA1 (strBytes s)))

/-- The constant `sec_accept_guid` of `generate_sec_accept_value`. -/
def sec_accept_guid : String := "258EAFA5-E914-47DA-95CA-C5AB0DC85B11"

/-- The function `generate_sec_accept_value` of WSConnection_v1.cpp: empty for an empty key,
otherwise the base64 of the SHA-1 digest of the key followed by the GUID. -/
def generate_sec_accept_value (sec_ws_key : String) : String :=
  if empty sec_ws_key then ""
  else
    let accept := sec_ws_key ++ sec_accept_guid
    let uShaRst2 := SHA1 (strBytes accept)
    String.mk (x64_encode uShaRst2)

/-! ## Helpers of `util/util.h` and constants of the WebSocket headers -/

/-- ASCII lower case of a character. -/
def lowerChar (c : Char) : Char :=
  if 65 ≤ c.toNat ∧ c.toNat ≤ 90 then Char.ofNat (c.toNat + 32) else c

/-- Modelled from the spec: `is_equal` of `util/util.h` (not part of the sources at
hand), the case-insensitive comparison of two strings. -/
def is_equal (a b : String) : Bool :=
  a.toList.map lowerChar == b.toList.map lowerChar

/-- Split a character list at every occurrence of `d`. -/
def splitAt (d : Char) : List Char → List (List Char)
  | [] => [[]]
  | c :: cs =>
      if c = d then [] :: splitAt d cs
      else
        match splitAt d cs with
        | [] => [[c]]
        | t :: ts => (c :: t) :: ts

/-- Remove blanks at both ends. -/
def trimBlanks (l : List Char) : List Char :=
  let isBlank : Char → Bool := fun c => c == ' ' || c == '\t'
  ((l.dropWhile isBlank).reverse.dropWhile isBlank).reverse

/-- Modelled from the spec: `contains_token` of `util/util.h` (not part of the
sources at hand): `str` is a list of tokens separated by `delim`, and one of
them, blanks around it removed, equals `token` without regard to case. -/
def contains_token (str token : String) (delim : Char) : Bool :=
  (splitAt delim str.toList).any (fun t => is_equal (String.mk (trimBlanks t)) token)

/-- Modelled from the spec: the header name `strUpgrade`, declared in a header file that is
not part of the sources at hand. -/
def strUpgrade : String := "Upgrade"
/-- Modelled from the spec: the header name `strHost`, declared in a header file that is
not part of the sources at hand. -/
def strHost : String := "Host"
/-- Modelled from the spec: the header name `kSecWebSocketKey`, declared in a header file that is
not part of the sources at hand. -/
def kSecWebSocketKey : String := "Sec-WebSocket-Key"
/-- Modelled from the spec: the header name `kSecWebSocketAccept`, declared in a header file that is
not part of the sources at hand. -/
def kSecWebSocketAccept : String := "Sec-WebSocket-Accept"
/-- Modelled from the spec: the header name `kSecWebSocketProtocol`, declared in a header file that is
not part of the sources at hand. -/
def kSecWebSocketProtocol : String := "Sec-WebSocket-Protocol"
/-- Modelled from the spec: the header name `kSecWebSocketExtensions`, declared in a header file that is
not part of the sources at hand. -/
def kSecWebSocketExtensions : String := "Sec-WebSocket-Extensions"
/-- Modelled from the spec: the header name `kSecWebSocketVersion`, declared in a header file that is
not part of the sources at hand. -/
def kSecWebSocketVersion : String := "Sec-WebSocket-Version"
/-- Modelled from the spec: the version token `kWebSocketVersion`, declared in a header
file that is not part of the sources at hand. -/
def kWebSocketVersion : String := "13"

/-- A list of headers, in order of insertion. -/
abbrev HeaderVector := List (String × String)

/-- Modelled from the spec: `HttpHeader::getHeader` (not part of the sources at
hand): the value of the first header of that name, names compared without
regard to case, and the empty string when there is none. -/
def getHeader (hs : HeaderVector) (name : String) : String :=
  match hs.find? (fun kv => is_equal kv.1 name) with
  | some kv => kv.2
  | none => ""

/-! ## WSConnection_V1 -/

namespace ws

/-- The error codes `KMError` used by the WebSocket layer. -/
inductive KMError
  | NOERR
  | FAILED
  | INVALID_STATE
  | INVALID_PARAM
  | PROTO_ERROR
  | REJECTED
  | TIMEOUT
  | POLL_ERROR
  | SSL_FAILED
  | UNSUPPORTED
deriving DecidableEq, Repr

/-- The states of a WebSocket connection. -/
inductive State
  | IDLE
  | UPGRADING
  | OPEN
  | IN_ERROR
  | CLOSED
deriving DecidableEq, Repr

/-- A request handed to the stream with `sendRequest`. -/
structure Request where
  method : String
  url : String
  ver : String
  headers : HeaderVector
deriving DecidableEq, Repr

/-- A response handed to the stream with `sendResponse`. -/
structure Response where
  status_code : Int
  desc : String
  ver : String
  headers : HeaderVector
deriving DecidableEq, Repr

/-- Modelled from the spec: the HTTP/1.1 stream `H1xStream` (not part of the
sources at hand), as far as WSConnection_V1 uses it: its role, the status code
and headers of the incoming message, the outgoing headers collected by
`addHeader`, the messages whose `sendRequest` / `sendResponse` returned NOERR,
and whether `close` was called on it. -/
structure H1xStream where
  is_server : Bool
  status_code : Int
  incoming : HeaderVector
  outgoing : HeaderVector
  requests : List Request
  responses : List Response
  closed : Bool
deriving DecidableEq, Repr

/-- Call `H1xStream::addHeader`: the header joins the outgoing headers. -/
def H1xStream.addHeader (s : H1xStream) (name value : String) : H1xStream :=
  { s with outgoing := s.outgoing ++ [(name, value)] }

/-- Call `H1xStream::sendRequest`, `ret` being what the call returns: when it is NOERR
the request goes out with the outgoing headers. -/
def H1xStream.sendRequest (s : H1xStream) (method url ver : String) (ret : KMError) :
    H1xStream :=
  if ret = KMError.NOERR then
    { s with requests := s.requests ++ [⟨method, url, ver, s.outgoing⟩] }
  else s

/-- Call `H1xStream::sendResponse`, `ret` being what the call returns: when it is
NOERR the response goes out with the outgoing headers. -/
def H1xStream.sendResponse (s : H1xStream) (status_code : Int) (desc ver : String)
    (ret : KMError) : H1xStream :=
  if ret = KMError.NOERR then
    { s with responses := s.responses ++ [⟨status_code, desc, ver, s.outgoing⟩] }
  else s

/-- Call `H1xStream::close`. -/
def H1xStream.close (s : H1xStream) : H1xStream := { s with closed := true }

/-- What the user's handshake callback does to the connection it is called on. -/
inductive CbAction
  | nothing
  | close
  | destroy
deriving DecidableEq, Repr

/-- The outcome of one call of the handshake callback: the value returned and
what it did to the connection meanwhile. -/
structure HandshakeResult where
  rv : Bool
  action : CbAction
deriving DecidableEq, Repr

/-- A callback of the base class WSConnection reaching the user. -/
inductive Notify
  | open_cb (err : KMError)
  | error_cb (err : KMError)
  | write_cb (err : KMError)
  | data_cb
deriving DecidableEq, Repr

/-- Modelled from the spec: an event that the HTTP/1.1 stream `H1xStream` (not part of
the sources at hand) emits to the callbacks installed on it: the headers of an
incoming message (with the status code, the headers, and what `sendResponse`
returns if the handler calls it), incoming data, write readiness, an error,
the completion of the incoming message, the completion of the outgoing
message. -/
inductive StreamEvent
  | header (status_code : Int) (hs : HeaderVector) (send_ret : KMError)
  | data
  | write (err : KMError)
  | error (err : KMError)
  | incoming_complete
  | outgoing_complete
deriving DecidableEq, Repr

/-- The fields of WSConnection_V1 and of its base class that the handshake uses;
`destroyed` records that the object was deleted inside a callback and
`notified` the open, error, write and data callbacks delivered to the user. -/
structure WSConnection_V1 where
  stream_ : H1xStream
  state_ : State
  origin_ : String
  subprotocol_ : String
  extensions_ : String
  sec_ws_key_ : String
  handshake_cb_ : Option (KMError → HandshakeResult)
  destroyed : Bool
  notified : List Notify

/-- The parts of a parsed `Uri`. -/
structure Uri where
  scheme : String
  host : String
  port : String
  path : String
  query : String
deriving DecidableEq, Repr

namespace WSConnection_V1

/-- A connection as the constructor leaves it, over a stream of the given role. -/
def init (is_server : Bool) : WSConnection_V1 :=
  { stream_ := ⟨is_server, 0, [], [], [], [], false⟩
    state_ := State.IDLE
    origin_ := ""
    subprotocol_ := ""
    extensions_ := ""
    sec_ws_key_ := ""
    handshake_cb_ := none
    destroyed := false
    notified := [] }

/-- Setter `setState`. -/
def setState (c : WSConnection_V1) (st : State) : WSConnection_V1 := { c with state_ := st }

/-- Getter `getState`. -/
def getState (c : WSConnection_V1) : State := c.state_

/-- Method `WSConnection_V1::cleanup`. -/
def cleanup (c : WSConnection_V1) : WSConnection_V1 := { c with stream_ := c.stream_.close }

/-- Method `WSConnection_V1::addHeader`. -/
def addHeader (c : WSConnection_V1) (name value : String) : WSConnection_V1 :=
  { c with stream_ := c.stream_.addHeader name value }

/-- Modelled from the spec: `WSConnection::onStateOpen` of the base class (not part
of the sources at hand): the connection becomes OPEN and the user's open
callback is told. -/
def base_onStateOpen (c : WSConnection_V1) : WSConnection_V1 :=
  { c.setState State.OPEN with notified := c.notified ++ [Notify.open_cb KMError.NOERR] }

/-- Modelled from the spec: `WSConnection::onStateError` of the base class (not part
of the sources at hand): the connection becomes IN_ERROR and the user's error
callback is told the error. -/
def base_onStateError (c : WSConnection_V1) (err : KMError) : WSConnection_V1 :=
  { c.setState State.IN_ERROR with notified := c.notified ++ [Notify.error_cb err] }

/-- Method `onStateOpen`, inherited. -/
def onStateOpen (c : WSConnection_V1) : WSConnection_V1 := c.base_onStateOpen

/-- Method `WSConnection_V1::onStateError`. -/
def onStateError (c : WSConnection_V1) (err : KMError) : WSConnection_V1 :=
  c.cleanup.base_onStateError err

/-- Method `WSConnection_V1::close`. -/
def close (c : WSConnection_V1) : WSConnection_V1 := c.cleanup.setState State.CLOSED

/-- Method `WSConnection_V1::connect_i`; `uri` is the outcome of `Uri::parse`
(`none` when the URL does not parse) and `send_ret` what `sendRequest` returns. -/
def connect_i (c : WSConnection_V1) (uri : Option Uri) (send_ret : KMError) :
    KMError × WSConnection_V1 :=
  match uri with
  | none => (KMError.INVALID_PARAM, c)
  | some uri =>
    let http_url := if is_equal "wss" uri.scheme then "https://" else "http://"
    let http_url := http_url ++ uri.host
    let http_url := if !empty uri.port then http_url ++ ":" ++ uri.port else http_url
    let http_url := http_url ++ uri.path
    let http_url := if !empty uri.query then http_url ++ "?" ++ uri.query else http_url
    let c := c.addHeader strUpgrade "websocket"
    let c := c.addHeader "Connection" "Upgrade"
    let c := c.addHeader strHost uri.host
    let c := if !empty c.origin_ then c.addHeader "Origin" c.origin_ else c
    let c := c.addHeader kSecWebSocketKey "dGhlIHNhbXBsZSBub25jZQ=="
    let c := if !empty c.subprotocol_ then c.addHeader kSecWebSocketProtocol c.subprotocol_
             else c
    let c := if !empty c.extensions_ then c.addHeader kSecWebSocketExtensions c.extensions_
             else c
    let c := c.addHeader kSecWebSocketVersion kWebSocketVersion
    let c := c.setState State.UPGRADING
    let c := { c with stream_ := c.stream_.sendRequest "GET" http_url "HTTP/1.1" send_ret }
    if send_ret ≠ KMError.NOERR then (send_ret, c.onStateError send_ret) else (send_ret, c)

/-- Method `WSConnection_V1::attachFd`, the stream's own `attachFd` left out. -/
def attachFd (c : WSConnection_V1) (cb : Option (KMError → HandshakeResult)) :
    WSConnection_V1 :=
  { c with handshake_cb_ := cb }.setState State.UPGRADING

/-- The body of the loop of `checkHandshake` for one incoming header. -/
def checkHandshakeStep (c : WSConnection_V1) (kv : String × String) : WSConnection_V1 :=
  if is_equal kv.1 kSecWebSocketProtocol then
    if empty c.subprotocol_ then { c with subprotocol_ := kv.2 }
    else { c with subprotocol_ := c.subprotocol_ ++ ", " ++ kv.2 }
  else if is_equal kv.1 kSecWebSocketExtensions then
    if empty c.extensions_ then { c with extensions_ := kv.2 }
    else { c with extensions_ := c.extensions_ ++ ", " ++ kv.2 }
  else c

/-- Method `WSConnection_V1::checkHandshake`: the subprotocols and the extensions of
the incoming headers, each list joined with a comma and a blank. -/
def checkHandshake (c : WSConnection_V1) : WSConnection_V1 :=
  c.stream_.incoming.foldl checkHandshakeStep { c with subprotocol_ := "", extensions_ := "" }

/-- Method `WSConnection_V1::sendUpgradeResponse`; `send_ret` is what `sendResponse`
returns. -/
def sendUpgradeResponse (c : WSConnection_V1) (status_code : Int) (desc : String)
    (send_ret : KMError) : KMError × WSConnection_V1 :=
  let c :=
    if status_code = 101 then
      let c := c.addHeader strUpgrade "websocket"
      let c := c.addHeader "Connection" "Upgrade"
      let c := c.addHeader kSecWebSocketAccept (generate_sec_accept_value c.sec_ws_key_)
      let c := if !empty c.subprotocol_ then c.addHeader kSecWebSocketProtocol c.subprotocol_
               else c
      if !empty c.extensions_ then c.addHeader kSecWebSocketExtensions c.extensions_ else c
    else c
  let c := c.addHeader kSecWebSocketVersion kWebSocketVersion
  let c := { c with stream_ := c.stream_.sendResponse status_code desc "HTTP/1.1" send_ret }
  if send_ret = KMError.NOERR then
    if status_code = 101 then (send_ret, (c.setState State.OPEN).onStateOpen)
    else (send_ret, c.setState State.IN_ERROR)
  else (send_ret, c)

/-- The checks of the `do { ... } while (0)` block of `handleUpgradeRequest` on the
request headers: the error found, and the key to store when there is none. -/
def checkUpgradeRequest (req_header : HeaderVector) : KMError × Option String :=
  if !is_equal (getHeader req_header "Upgrade") "WebSocket" ||
      !contains_token (getHeader req_header "Connection") "Upgrade" ',' then
    (KMError.PROTO_ERROR, none)
  else
    let sec_ws_ver := getHeader req_header kSecWebSocketVersion
    if empty sec_ws_ver || !contains_token sec_ws_ver kWebSocketVersion ',' then
      (KMError.PROTO_ERROR, none)
    else
      let sec_ws_key := getHeader req_header kSecWebSocketKey
      if empty sec_ws_key then (KMError.PROTO_ERROR, none)
      else (KMError.NOERR, some sec_ws_key)

/-- The effect on the connection of what the handshake callback did. -/
def applyCbAction (c : WSConnection_V1) : CbAction → WSConnection_V1
  | CbAction.nothing => c
  | CbAction.close => c.close
  | CbAction.destroy => { c with destroyed := true }

/-- Method `WSConnection_V1::handleUpgradeRequest`; `send_ret` is what `sendResponse`
returns if it comes to be called. -/
def handleUpgradeRequest (c : WSConnection_V1) (send_ret : KMError) : WSConnection_V1 :=
  let req_header := c.stream_.incoming
  let c := { c with origin_ := getHeader req_header "Origin" }
  let chk := checkUpgradeRequest req_header
  let err := chk.1
  let c := match chk.2 with
    | some key => { c with sec_ws_key_ := key }
    | none => c
  match c.handshake_cb_ with
  | none => c
  | some handshake_cb =>
    let c := c.checkHandshake
    let r := handshake_cb err
    let c := applyCbAction c r.action
    if c.destroyed then c
    else if err = KMError.NOERR ∧ c.getState = State.UPGRADING then
      let err := if !r.rv then KMError.REJECTED else err
      let sd : Int × String :=
        if err = KMError.REJECTED then (403, "Forbidden")
        else if err ≠ KMError.NOERR then (400, "Bad Request")
        else (101, "Switching Protocols")
      let rc := c.sendUpgradeResponse sd.1 sd.2 send_ret
      if rc.1 ≠ KMError.NOERR then rc.2.onStateError rc.1 else rc.2
    else c

/-- Method `WSConnection_V1::handleUpgradeResponse`. -/
def handleUpgradeResponse (c : WSConnection_V1) : WSConnection_V1 :=
  let status_code := c.stream_.status_code
  let rsp_header := c.stream_.incoming
  let err :=
    if status_code ≠ 101 ||
        !is_equal (getHeader rsp_header "Upgrade") "WebSocket" ||
        !contains_token (getHeader rsp_header "Connection") "Upgrade" ',' then
      KMError.PROTO_ERROR
    else KMError.NOERR
  if err = KMError.NOERR then c.checkHandshake.onStateOpen
  else c.onStateError err

/-- Method `WSConnection_V1::onHeader`. -/
def onHeader (c : WSConnection_V1) (send_ret : KMError) : WSConnection_V1 :=
  if c.stream_.is_server then c.handleUpgradeRequest send_ret
  else c.handleUpgradeResponse

/-- The stream delivers the headers of an incoming message to the connection. -/
def receiveHeaders (c : WSConnection_V1) (status_code : Int) (hs : HeaderVector)
    (send_ret : KMError) : WSConnection_V1 :=
  { c with stream_ := { c.stream_ with status_code := status_code, incoming := hs } }.onHeader
    send_ret

/-- Method `WSConnection_V1::onError`. -/
def onError (c : WSConnection_V1) (err : KMError) : WSConnection_V1 := c.onStateError err

/-- Method `WSConnection_V1::onWrite`: the user's write callback, when one is set, is told
NOERR. -/
def onWrite (c : WSConnection_V1) : WSConnection_V1 :=
  { c with notified := c.notified ++ [Notify.write_cb KMError.NOERR] }

/-- Method `WSConnection_V1::onData`: the user's data callback, when one is set, gets the
buffer. -/
def onData (c : WSConnection_V1) : WSConnection_V1 :=
  { c with notified := c.notified ++ [Notify.data_cb] }

/-- The callbacks that the constructor `WSConnection_V1::WSConnection_V1` installs on the
stream: headers go to `onHeader`, data to `onData`, write readiness to
`onWrite`, an error to `onError` with that error, and the completion of the
incoming message as well as the completion of the outgoing message to
`onError(KMError::PROTO_ERROR)`. -/
def onStreamEvent (c : WSConnection_V1) : StreamEvent → WSConnection_V1
  | StreamEvent.header status_code hs send_ret => c.receiveHeaders status_code hs send_ret
  | StreamEvent.data => c.onData
  | StreamEvent.write _ => c.onWrite
  | StreamEvent.error err => c.onError err
  | StreamEvent.incoming_complete => c.onError KMError.PROTO_ERROR
  | StreamEvent.outgoing_complete => c.onError KMError.PROTO_ERROR

/-- Modelled from the spec: what `H1xStream` (not part of the sources at hand) does once a
response that ends the exchange (a 403 or a 400, which carries no body and is
no upgrade) has been sent with success: the outgoing message is complete, and
the stream emits `on_outgoing_complete`. -/
def responseSentInFull (c : WSConnection_V1) : WSConnection_V1 :=
  c.onStreamEvent StreamEvent.outgoing_complete

end WSConnection_V1

end ws

end kuma

/-! ## TcpSocket

The embedding follows `src/TcpSocket.cpp` for the POSIX build. The two build
variants (with and without `KUMA_HAS_OPENSSL`) and the poll type of the loop
are the fields of `Env`. The results of the OS calls and of the TLS handler
that an operation consults are the fields of `Os`, one record per call of an
operation. The calls made on the loop and on descriptors, and the user
callbacks invoked, are appended to the `trace` of the socket. -/

set_option linter.unusedVariables false

namespace kuma

/-- The states of a TcpSocket. -/
inductive State
  | ST_IDLE
  | ST_CONNECTING
  | ST_OPEN
  | ST_CLOSED
deriving DecidableEq, Repr

/-- The error codes `KUMA_ERROR_*` of this version of the library. -/
inductive KumaError
  | KUMA_ERROR_NOERR
  | KUMA_ERROR_FAILED
  | KUMA_ERROR_INVALID_STATE
  | KUMA_ERROR_INVALID_PARAM
  | KUMA_ERROR_UNSUPPORT
  | KUMA_ERROR_POLLERR
  | KUMA_ERROR_SSL_FAILED
  | KUMA_ERROR_TIMEOUT
deriving DecidableEq, Repr

open KumaError State

/-- The states `SslHandler::SslState` of the TLS handler. -/
inductive SslState
  | SSL_NONE
  | SSL_HANDSHAKE
  | SSL_SUCCESS
  | SSL_ERROR
deriving DecidableEq, Repr

/-- The poll types of the loop; the socket only asks whether it is POLL_TYPE_POLL. -/
inductive PollType
  | POLL_TYPE_NONE
  | POLL_TYPE_POLL
  | POLL_TYPE_EPOLL
  | POLL_TYPE_KQUEUE
  | POLL_TYPE_SELECT
deriving DecidableEq, Repr

/-- Modelled from the spec: the constant `INVALID_FD` of a header that is not part of
the sources at hand; -1 on POSIX. -/
def INVALID_FD : Int := -1

/-- Modelled from the spec: the event bit `KUMA_EV_READ` of `evdefs.h` (not at hand). -/
def KUMA_EV_READ : Nat := 1
/-- Modelled from the spec: the event bit `KUMA_EV_WRITE` of `evdefs.h` (not at hand). -/
def KUMA_EV_WRITE : Nat := 2
/-- Modelled from the spec: the event bit `KUMA_EV_ERROR` of `evdefs.h` (not at hand). -/
def KUMA_EV_ERROR : Nat := 4
/-- Modelled from the spec: the mask `KUMA_EV_NETWORK` of `evdefs.h` (not at hand), the
union of READ, WRITE and ERROR. -/
def KUMA_EV_NETWORK : Nat := KUMA_EV_READ ||| KUMA_EV_WRITE ||| KUMA_EV_ERROR

/-- Modelled from the spec: the flag bit `FLAG_ENABLE_SSL` of `TcpSocket.h` (not at hand). -/
def FLAG_ENABLE_SSL : Nat := 1

/-- The errno value `EAGAIN` (Linux). -/
def EAGAIN : Int := 11
/-- The errno value `EWOULDBLOCK` (Linux). -/
def EWOULDBLOCK : Int := 11
/-- The errno value `EINPROGRESS` (Linux). -/
def EINPROGRESS : Int := 115

/-- The build variant and the loop the socket lives on. -/
structure Env where
  has_openssl : Bool
  poll_type : PollType
deriving DecidableEq, Repr

/-- The results of the OS calls and TLS handler calls that one operation may consult:
`addr_ok` says that `km_set_sock_addr` returned 0, `sock` is the result of
`::socket`, `bind_ret` of `::bind`, `connect_ret` of `::connect`, `io_ret` of
`::send`, `::writev` or `::recv`, `last_error` of `getLastError`,
`ssl_attach` of `SslHandler::attachFd`, `ssl_handshake` of
`SslHandler::doSslHandshake`, `ssl_io` of `SslHandler::send` or `receive`. -/
structure Os where
  addr_ok : Bool
  sock : Int
  bind_ret : Int
  connect_ret : Int
  io_ret : Int
  last_error : Int
  ssl_attach : KumaError
  ssl_handshake : SslState
  ssl_io : Int
deriving DecidableEq, Repr

/-- What the socket does to the loop and to descriptors, and the user callbacks it
invokes. `getTimerMgr` is the loop's only access to timers. -/
inductive Effect
  | shutdown (fd : Int)
  | closeFd (fd : Int)
  | registerFd (fd : Int) (events : Nat)
  | updateFd (fd : Int) (events : Nat)
  | unregisterFd (fd : Int) (close_fd : Bool)
  | getTimerMgr
  | ssl_close
  | cb_connect (err : KumaError)
  | cb_read (err : KumaError)
  | cb_write (err : KumaError)
  | cb_error (err : KumaError)
deriving DecidableEq, Repr

/-- A call of a public operation of the socket made from inside a user callback,
with the results of the OS calls it meets. A `connect` issued there passes an
empty callback. -/
inductive ReCall
  | bind (os : Os)
  | connect (flags timeout : Nat) (os : Os)
  | attachFd (fd : Int) (flags : Nat) (os : Os)
  | detachFd
  | send (length : Nat) (os : Os)
  | sendv (count : Nat) (os : Os)
  | receive (os : Os)
  | close
deriving DecidableEq, Repr

/-- What a user callback does with the socket it is called on: a sequence of calls,
and possibly the deletion of the socket at the end. -/
structure Script where
  calls : List ReCall
  destroy : Bool
deriving DecidableEq, Repr

/-- A user callback (`EventCallback`): its behaviour for the error code it receives. -/
abbrev Callback := KumaError → Script

/-- The fields of a TcpSocket. An `std::function` is `none` when empty. `ssl_handler_`
is `none` for a null pointer and otherwise holds the handler's state.
`destroyed` records that the destructor has run (what `destroy_flag_ptr_`
reports to `ioReady`, which is entered on a socket that is not destroyed), and
`trace` the effects so far. -/
structure TcpSocket where
  fd_ : Int
  state_ : State
  registered_ : Bool
  flags_ : Nat
  ssl_handler_ : Option SslState
  cb_connect_ : Option Callback
  cb_read_ : Option Callback
  cb_write_ : Option Callback
  cb_error_ : Option Callback
  destroyed : Bool
  trace : List Effect

namespace TcpSocket

/-- The constructor, followed by the installation of the read, write and error
callbacks. -/
def init (cb_read cb_write cb_error : Option Callback) : TcpSocket :=
  { fd_ := INVALID_FD
    state_ := ST_IDLE
    registered_ := false
    flags_ := 0
    ssl_handler_ := none
    cb_connect_ := none
    cb_read_ := cb_read
    cb_write_ := cb_write
    cb_error_ := cb_error
    destroyed := false
    trace := [] }

/-- Append an effect to the trace. -/
def emit (s : TcpSocket) (e : Effect) : TcpSocket := { s with trace := s.trace ++ [e] }

/-- Setter `setState`. -/
def setState (s : TcpSocket) (st : State) : TcpSocket := { s with state_ := st }

/-- Getter `getState`. -/
def getState (s : TcpSocket) : State := s.state_

/-- Method `TcpSocket::SslEnabled`. -/
def SslEnabled (s : TcpSocket) : Bool := s.flags_ &&& FLAG_ENABLE_SSL != 0

/-- Method `TcpSocket::cleanup`. -/
def cleanup (env : Env) (s : TcpSocket) : TcpSocket :=
  let s :=
    if env.has_openssl ∧ s.ssl_handler_.isSome then
      { s.emit Effect.ssl_close with ssl_handler_ := none }
    else s
  if INVALID_FD ≠ s.fd_ then
    let fd := s.fd_
    let s := { s with fd_ := INVALID_FD }
    let s := s.emit (Effect.shutdown fd)
    if s.registered_ then
      { s with registered_ := false }.emit (Effect.unregisterFd fd true)
    else
      s.emit (Effect.closeFd fd)
  else s

/-- The destructor `TcpSocket::~TcpSocket`. -/
def destructor (env : Env) (s : TcpSocket) : TcpSocket :=
  cleanup env { s with destroyed := true }

/-- Method `TcpSocket::bind`. -/
def bind (env : Env) (s : TcpSocket) (os : Os) : KumaError × TcpSocket :=
  if s.getState ≠ ST_IDLE then (KUMA_ERROR_INVALID_STATE, s)
  else
    let s := if s.fd_ ≠ INVALID_FD then cleanup env s else s
    if !os.addr_ok then (KUMA_ERROR_INVALID_PARAM, s)
    else
      let s := { s with fd_ := os.sock }
      if INVALID_FD = s.fd_ then (KUMA_ERROR_FAILED, s)
      else if os.bind_ret < 0 then (KUMA_ERROR_FAILED, s)
      else (KUMA_ERROR_NOERR, s)

/-- The call `loop_->registerFd(fd_, KUMA_EV_NETWORK, ...)` followed by
`registered_ = true`, which ends `connect_i` and `attachFd`. -/
def registerNetwork (s : TcpSocket) : TcpSocket :=
  { s.emit (Effect.registerFd s.fd_ KUMA_EV_NETWORK) with registered_ := true }

/-- Method `TcpSocket::connect_i`. The argument `timeout` is not used by the code. -/
def connect_i (env : Env) (s : TcpSocket) (timeout : Nat) (os : Os) :
    KumaError × TcpSocket :=
  if !env.has_openssl ∧ s.SslEnabled then (KUMA_ERROR_UNSUPPORT, s)
  else if !os.addr_ok then (KUMA_ERROR_INVALID_PARAM, s)
  else
    let s := if INVALID_FD = s.fd_ then { s with fd_ := os.sock } else s
    if INVALID_FD = s.fd_ then (KUMA_ERROR_FAILED, s)
    else if os.connect_ret = 0 ∨ (os.connect_ret < 0 ∧ EINPROGRESS = os.last_error) then
      let s := s.setState ST_CONNECTING
      (KUMA_ERROR_NOERR, registerNetwork s)
    else
      (KUMA_ERROR_FAILED, (cleanup env s).setState ST_CLOSED)

/-- Method `TcpSocket::connect`. -/
def connect (env : Env) (s : TcpSocket) (cb : Option Callback) (flags timeout : Nat)
    (os : Os) : KumaError × TcpSocket :=
  if s.getState ≠ ST_IDLE then (KUMA_ERROR_INVALID_STATE, s)
  else connect_i env { s with cb_connect_ := cb, flags_ := flags } timeout os

/-- Method `TcpSocket::startSslHandshake`; `is_server` only goes to the handler. -/
def startSslHandshake (env : Env) (s : TcpSocket) (is_server : Bool) (os : Os) :
    KumaError × TcpSocket :=
  if !env.has_openssl then (KUMA_ERROR_UNSUPPORT, s)
  else if INVALID_FD = s.fd_ then (KUMA_ERROR_INVALID_STATE, s)
  else
    let s := if s.ssl_handler_.isSome then s.emit Effect.ssl_close else s
    let s := { s with ssl_handler_ := some SslState.SSL_NONE }
    if os.ssl_attach ≠ KUMA_ERROR_NOERR then (os.ssl_attach, s)
    else
      let s := { s with flags_ := s.flags_ ||| FLAG_ENABLE_SSL }
      let s := { s with ssl_handler_ := some os.ssl_handshake }
      if SslState.SSL_ERROR = os.ssl_handshake then (KUMA_ERROR_SSL_FAILED, s)
      else (KUMA_ERROR_NOERR, s)

/-- Method `TcpSocket::attachFd`. -/
def attachFd (env : Env) (s : TcpSocket) (fd : Int) (flags : Nat) (os : Os) :
    KumaError × TcpSocket :=
  if s.getState ≠ ST_IDLE then (KUMA_ERROR_INVALID_STATE, s)
  else if !env.has_openssl ∧ s.SslEnabled then (KUMA_ERROR_UNSUPPORT, s)
  else
    let s := { s with fd_ := fd, flags_ := flags }
    let s := s.setState ST_OPEN
    if env.has_openssl ∧ s.SslEnabled then
      let r := startSslHandshake env s true os
      if r.1 ≠ KUMA_ERROR_NOERR then r
      else (KUMA_ERROR_NOERR, registerNetwork r.2)
    else (KUMA_ERROR_NOERR, registerNetwork s)

/-- Method `TcpSocket::detachFd`; the descriptor handed out is the second component. -/
def detachFd (env : Env) (s : TcpSocket) : KumaError × Int × TcpSocket :=
  let fd := s.fd_
  let s := { s with fd_ := INVALID_FD }
  let s :=
    if s.registered_ then { s with registered_ := false }.emit (Effect.unregisterFd fd false)
    else s
  let s := cleanup env s
  (KUMA_ERROR_NOERR, fd, s.setState ST_CLOSED)

/-- Method `TcpSocket::isReady`. -/
def isReady (env : Env) (s : TcpSocket) : Bool :=
  s.getState = ST_OPEN &&
    (!env.has_openssl || (!s.SslEnabled || s.ssl_handler_ = some SslState.SSL_SUCCESS))

/-- The value of `ret` in `send` and `receive` after the OS call: 0 from the OS means
that the peer closed and becomes -1; a would-block error becomes 0. -/
def ioResult (os : Os) : Int :=
  if os.io_ret = 0 then -1
  else if os.io_ret < 0 then
    if os.last_error = EAGAIN ∨ EWOULDBLOCK = os.last_error then 0 else os.io_ret
  else os.io_ret

/-- Method `TcpSocket::send(uint8_t*, uint32_t)`. -/
def send (env : Env) (s : TcpSocket) (length : Nat) (os : Os) : Int × TcpSocket :=
  if !isReady env s then (0, s)
  else if INVALID_FD = s.fd_ then (-1, s)
  else
    let ret : Int := if env.has_openssl ∧ s.SslEnabled then os.ssl_io else ioResult os
    if ret < 0 then (ret, (cleanup env s).setState ST_CLOSED)
    else if ret < length then
      if env.poll_type = PollType.POLL_TYPE_POLL then
        (ret, s.emit (Effect.updateFd s.fd_ KUMA_EV_NETWORK))
      else (ret, s)
    else (ret, s)

/-- Method `TcpSocket::send(iovec*, uint32_t)`. -/
def sendv (env : Env) (s : TcpSocket) (count : Nat) (os : Os) : Int × TcpSocket :=
  if !isReady env s then (0, s)
  else if INVALID_FD = s.fd_ then (-1, s)
  else if 0 = count then (0, s)
  else
    let ret : Int := if env.has_openssl ∧ s.SslEnabled then os.ssl_io else ioResult os
    let bytes_sent : Int := if ret > 0 then ret else 0
    if ret < 0 then (ret, (cleanup env s).setState ST_CLOSED)
    else if 0 = ret then
      if env.poll_type = PollType.POLL_TYPE_POLL then
        (bytes_sent, s.emit (Effect.updateFd s.fd_ KUMA_EV_NETWORK))
      else (bytes_sent, s)
    else (bytes_sent, s)

/-- Method `TcpSocket::receive`. -/
def receive (env : Env) (s : TcpSocket) (os : Os) : Int × TcpSocket :=
  if !isReady env s then (0, s)
  else if INVALID_FD = s.fd_ then (-1, s)
  else
    let ret : Int := if env.has_openssl ∧ s.SslEnabled then os.ssl_io else ioResult os
    if ret < 0 then (ret, (cleanup env s).setState ST_CLOSED)
    else (ret, s)

/-- Method `TcpSocket::close`. -/
def close (env : Env) (s : TcpSocket) : KumaError × TcpSocket :=
  (KUMA_ERROR_NOERR, (cleanup env s).setState ST_CLOSED)

/-- One call made from inside a callback. -/
def reCall (env : Env) (s : TcpSocket) : ReCall → TcpSocket
  | ReCall.bind os => (bind env s os).2
  | ReCall.connect flags timeout os => (connect env s none flags timeout os).2
  | ReCall.attachFd fd flags os => (attachFd env s fd flags os).2
  | ReCall.detachFd => (detachFd env s).2.2
  | ReCall.send length os => (send env s length os).2
  | ReCall.sendv count os => (sendv env s count os).2
  | ReCall.receive os => (receive env s os).2
  | ReCall.close => (close env s).2

/-- The run of a user callback: what it does to the socket, then the destructor if it
deletes the socket. -/
def runScript (env : Env) (s : TcpSocket) (sc : Script) : TcpSocket :=
  let s := sc.calls.foldl (reCall env) s
  if sc.destroy then destructor env s else s

/-- The end of `onConnect`: on an error the socket is cleaned up and CLOSED, then the
connect callback is moved out of the socket and, when there is one, called. -/
def onConnectFinish (env : Env) (s : TcpSocket) (err : KumaError) : TcpSocket :=
  let s := if err ≠ KUMA_ERROR_NOERR then (cleanup env s).setState ST_CLOSED else s
  let cb_connect := s.cb_connect_
  let s := { s with cb_connect_ := none }
  match cb_connect with
  | some cb => runScript env (s.emit (Effect.cb_connect err)) (cb err)
  | none => s

/-- Method `TcpSocket::onConnect`. -/
def onConnect (env : Env) (s : TcpSocket) (err : KumaError) (os : Os) : TcpSocket :=
  if err = KUMA_ERROR_NOERR then
    let s := s.setState ST_OPEN
    if env.has_openssl ∧ s.SslEnabled then
      let r := startSslHandshake env s false os
      if KUMA_ERROR_NOERR = r.1 ∧ r.2.ssl_handler_ = some SslState.SSL_HANDSHAKE then r.2
      else onConnectFinish env r.2 r.1
    else onConnectFinish env s err
  else onConnectFinish env s err

/-- Method `TcpSocket::onSend`. -/
def onSend (env : Env) (s : TcpSocket) (err : KumaError) : TcpSocket :=
  let s :=
    if env.poll_type = PollType.POLL_TYPE_POLL then
      s.emit (Effect.updateFd s.fd_ (KUMA_EV_READ ||| KUMA_EV_ERROR))
    else s
  match s.cb_write_ with
  | some cb => if isReady env s then runScript env (s.emit (Effect.cb_write err)) (cb err) else s
  | none => s

/-- Method `TcpSocket::onReceive`. -/
def onReceive (env : Env) (s : TcpSocket) (err : KumaError) : TcpSocket :=
  match s.cb_read_ with
  | some cb => if isReady env s then runScript env (s.emit (Effect.cb_read err)) (cb err) else s
  | none => s

/-- Method `TcpSocket::onClose`. -/
def onClose (env : Env) (s : TcpSocket) (err : KumaError) : TcpSocket :=
  let s := (cleanup env s).setState ST_CLOSED
  match s.cb_error_ with
  | some cb => runScript env (s.emit (Effect.cb_error err)) (cb err)
  | none => s

/-- The test `events & bit`. -/
def hasEvent (events bit : Nat) : Bool := events &&& bit != 0

/-- The part of `ioReady` in state ST_OPEN that follows the TLS handshake: read, then
error, then write. -/
def ioReadyOpen (env : Env) (s : TcpSocket) (events : Nat) : TcpSocket :=
  let s := if hasEvent events KUMA_EV_READ then onReceive env s KUMA_ERROR_NOERR else s
  if s.destroyed then s
  else if hasEvent events KUMA_EV_ERROR ∧ s.getState = ST_OPEN then
    onClose env s KUMA_ERROR_POLLERR
  else if hasEvent events KUMA_EV_WRITE ∧ s.getState = ST_OPEN then
    onSend env s KUMA_ERROR_NOERR
  else s

/-- The end of the TLS handshake step of `ioReady`, `err` being its outcome: the connect
callback is moved out and called if there is one; otherwise an error closes
the socket through `onClose`, and a success adds the WRITE bit to the events.
The result is the socket, the events to go on with, and whether `ioReady`
returns there (it does when `err` is an error). -/
def ioReadyHandshakeDone (env : Env) (s : TcpSocket) (events : Nat) (err : KumaError) :
    TcpSocket × Nat × Bool :=
  match s.cb_connect_ with
  | some cb =>
      (runScript env ({ s with cb_connect_ := none }.emit (Effect.cb_connect err)) (cb err),
        events, decide (err ≠ KUMA_ERROR_NOERR))
  | none =>
      if err ≠ KUMA_ERROR_NOERR then (onClose env s err, events, true)
      else (s, events ||| KUMA_EV_WRITE, false)

/-- The part of `ioReady` in state ST_OPEN that drives a TLS handshake in progress
(only with OpenSSL): the socket, the events to go on with, and whether
`ioReady` returns there. -/
def ioReadyHandshake (env : Env) (s : TcpSocket) (events : Nat) (os : Os) :
    TcpSocket × Nat × Bool :=
  if hasEvent events KUMA_EV_ERROR then ioReadyHandshakeDone env s events KUMA_ERROR_POLLERR
  else
    let s := { s with ssl_handler_ := some os.ssl_handshake }
    if SslState.SSL_ERROR = os.ssl_handshake then
      ioReadyHandshakeDone env s events KUMA_ERROR_SSL_FAILED
    else if SslState.SSL_HANDSHAKE = os.ssl_handshake then (s, events, true)
    else ioReadyHandshakeDone env s events KUMA_ERROR_NOERR

/-- Method `TcpSocket::ioReady`. -/
def ioReady (env : Env) (s : TcpSocket) (events : Nat) (os : Os) : TcpSocket :=
  match s.getState with
  | ST_CONNECTING =>
      if hasEvent events KUMA_EV_ERROR then onConnect env s KUMA_ERROR_POLLERR os
      else
        let s := onConnect env s KUMA_ERROR_NOERR os
        if s.destroyed then s
        else if hasEvent events KUMA_EV_READ then onReceive env s KUMA_ERROR_NOERR
        else s
  | ST_OPEN =>
      if env.has_openssl ∧ s.ssl_handler_ = some SslState.SSL_HANDSHAKE then
        let r := ioReadyHandshake env s events os
        if r.2.2 then r.1 else ioReadyOpen env r.1 r.2.1
      else ioReadyOpen env s events
  | _ => s

end TcpSocket

/-- A call of an operation of the socket by its owner or by the loop. -/
inductive Call
  | bind (os : Os)
  | connect (cb : Option Callback) (flags timeout : Nat) (os : Os)
  | attachFd (fd : Int) (flags : Nat) (os : Os)
  | detachFd
  | send (length : Nat) (os : Os)
  | sendv (count : Nat) (os : Os)
  | receive (os : Os)
  | close
  | ioReady (events : Nat) (os : Os)

/-- The socket after a call. -/
def TcpSocket.call (env : Env) (s : TcpSocket) : Call → TcpSocket
  | Call.bind os => (s.bind env os).2
  | Call.connect cb flags timeout os => (s.connect env cb flags timeout os).2
  | Call.attachFd fd flags os => (s.attachFd env fd flags os).2
  | Call.detachFd => (s.detachFd env).2.2
  | Call.send length os => (s.send env length os).2
  | Call.sendv count os => (s.sendv env count os).2
  | Call.receive os => (s.receive env os).2
  | Call.close => (s.close env).2
  | Call.ioReady events os => s.ioReady env events os

/-- The socket after a sequence of calls. -/
def TcpSocket.run (env : Env) (s : TcpSocket) (calls : List Call) : TcpSocket :=
  calls.foldl (TcpSocket.call env) s

end kuma

/-! ## The handshake requirements in the words of the specification, and concrete handshakes -/

namespace kuma

namespace ws

/-- The requirements on a server-side upgrade request, in the words of the
specification: `Upgrade` is websocket whatever the case, `Connection` has the
token Upgrade, `Sec-WebSocket-Version` has the token 13, and
`Sec-WebSocket-Key` is not empty. -/
def wellFormedRequest (hs : HeaderVector) : Bool :=
  is_equal (getHeader hs "Upgrade") "websocket" &&
  contains_token (getHeader hs "Connection") "Upgrade" ',' &&
  contains_token (getHeader hs "Sec-WebSocket-Version") "13" ',' &&
  !empty (getHeader hs "Sec-WebSocket-Key")

/-- The requirements of the client on the status line and on the `Upgrade` and
`Connection` headers of an upgrade response, in the words of the specification. -/
def upgradeAccepted (status_code : Int) (hs : HeaderVector) : Bool :=
  decide (status_code = 101) &&
  is_equal (getHeader hs "Upgrade") "websocket" &&
  contains_token (getHeader hs "Connection") "Upgrade" ',' 

/-- The fields that `checkHandshake` leaves alone. -/
def sameButNegotiated (c d : WSConnection_V1) : Prop :=
  d.stream_ = c.stream_ ∧ d.state_ = c.state_ ∧ d.sec_ws_key_ = c.sec_ws_key_ ∧
    d.handshake_cb_ = c.handshake_cb_ ∧ d.destroyed = c.destroyed ∧ d.notified = c.notified

/-- The connection on which `handleUpgradeRequest` sends its response, for a
well-formed request: origin and key stored, subprotocol and extensions read. -/
def afterChecks (c : WSConnection_V1) : WSConnection_V1 :=
  WSConnection_V1.checkHandshake
    { c with
      origin_ := getHeader c.stream_.incoming "Origin"
      sec_ws_key_ := getHeader c.stream_.incoming kSecWebSocketKey }

/-- The headers that `sendUpgradeResponse` adds for status 101. -/
def upgradeHeaders (c : WSConnection_V1) : HeaderVector :=
  [("Upgrade", "websocket"), ("Connection", "Upgrade"),
   ("Sec-WebSocket-Accept", generate_sec_accept_value c.sec_ws_key_)] ++
  (if empty c.subprotocol_ then [] else [("Sec-WebSocket-Protocol", c.subprotocol_)]) ++
  (if empty c.extensions_ then [] else [("Sec-WebSocket-Extensions", c.extensions_)]) ++
  [("Sec-WebSocket-Version", "13")]

/-- The key of the RFC 6455 example, which `connect_i` sends. -/
def sampleKey : String := "dGhlIHNhbXBsZSBub25jZQ=="

/-- A client connection after `connect("ws://example.com/chat")`, the request sent. -/
def sampleClient : WSConnection_V1 :=
  ((WSConnection_V1.init false).connect_i (some ⟨"ws", "example.com", "", "/chat", ""⟩)
    KMError.NOERR).2

/-- An upgrade response's headers without any `Sec-WebSocket-Accept`. -/
def responseNoAccept : HeaderVector :=
  [("Upgrade", "websocket"), ("Connection", "Upgrade")]

/-- An upgrade response's headers with a `Sec-WebSocket-Accept` that answers no key. -/
def responseBadAccept : HeaderVector :=
  [("Upgrade", "websocket"), ("Connection", "Upgrade"),
   ("Sec-WebSocket-Accept", "AAAAAAAAAAAAAAAAAAAAAAAAAAA=")]

/-- A server connection after `attachFd` with a handshake callback that answers `rv`
and leaves the connection alone. -/
def sampleServer (rv : Bool) : WSConnection_V1 :=
  (WSConnection_V1.init true).attachFd (some (fun _ => ⟨rv, CbAction.nothing⟩))

/-- The request headers of the RFC 6455 example. -/
def sampleRequest : HeaderVector :=
  [("Upgrade", "websocket"), ("Connection", "Upgrade"),
   ("Sec-WebSocket-Key", "dGhlIHNhbXBsZSBub25jZQ=="), ("Sec-WebSocket-Version", "13")]

/-- A request that is not an upgrade to WebSocket: its `Upgrade` header names another
protocol. -/
def malformedRequest : HeaderVector :=
  [("Upgrade", "h2c"), ("Connection", "Upgrade"),
   ("Sec-WebSocket-Key", "dGhlIHNhbXBsZSBub25jZQ=="), ("Sec-WebSocket-Version", "13")]

end ws

end kuma

/-! ## Orders on the states, the invariant, and concrete sockets -/

namespace kuma

open KumaError State

/-- The position of a state on the way from IDLE to CLOSED. -/
def State.rank : State → Nat
  | ST_IDLE => 0
  | ST_CONNECTING => 1
  | ST_OPEN => 2
  | ST_CLOSED => 3

/-- The moves between states that the specification allows: none, or one of the edges
IDLE→CONNECTING, CONNECTING→OPEN, IDLE→OPEN, OPEN→CLOSED, CONNECTING→CLOSED. -/
def specStep (a b : State) : Prop :=
  b = a ∨ (a = ST_IDLE ∧ b = ST_CONNECTING) ∨ (a = ST_CONNECTING ∧ b = ST_OPEN) ∨
    (a = ST_IDLE ∧ b = ST_OPEN) ∨ (a = ST_OPEN ∧ b = ST_CLOSED) ∨
    (a = ST_CONNECTING ∧ b = ST_CLOSED)

instance (a b : State) : Decidable (specStep a b) := by
  unfold specStep
  infer_instance

/-- The moves between states that the code makes: those of the specification, and
IDLE→CLOSED. -/
def codeStep (a b : State) : Prop :=
  specStep a b ∨ (a = ST_IDLE ∧ b = ST_CLOSED)

instance (a b : State) : Decidable (codeStep a b) := by
  unfold codeStep
  infer_instance

/-- The invariant of the specification on registration: a socket registered with the
loop holds a descriptor. -/
def registeredHasFd (s : TcpSocket) : Prop :=
  s.registered_ = true → s.fd_ ≠ INVALID_FD

instance (s : TcpSocket) : Decidable (registeredHasFd s) := by
  unfold registeredHasFd
  infer_instance

/-- The invariant together with the fact that the socket has left IDLE, which is the
case whenever a user callback runs. -/
def TcpSocket.Good (s : TcpSocket) : Prop := registeredHasFd s ∧ s.state_ ≠ ST_IDLE

instance (s : TcpSocket) : Decidable s.Good := by
  unfold TcpSocket.Good
  infer_instance

/-- The call is not an `attachFd` of INVALID_FD. -/
def Call.attachesValidFd : Call → Prop
  | Call.attachFd fd _ _ => fd ≠ INVALID_FD
  | _ => True

instance (c : Call) : Decidable c.attachesValidFd := by
  cases c <;> unfold Call.attachesValidFd <;> infer_instance

/-- The effects of `cleanup` on a socket: the TLS handler is closed if there is one, and
a descriptor held is shut down for reading, then unregistered and closed by the
loop if it was registered, and closed directly otherwise. -/
def cleanupEffects (env : Env) (s : TcpSocket) : List Effect :=
  (if env.has_openssl ∧ s.ssl_handler_.isSome then [Effect.ssl_close] else []) ++
  (if s.fd_ ≠ INVALID_FD then
    [Effect.shutdown s.fd_,
     if s.registered_ then Effect.unregisterFd s.fd_ true else Effect.closeFd s.fd_]
   else [])

/-- The effect is the invocation of a user callback. -/
def Effect.isCallback : Effect → Bool
  | Effect.cb_connect _ => true
  | Effect.cb_read _ => true
  | Effect.cb_write _ => true
  | Effect.cb_error _ => true
  | _ => false

/-- The effect is the invocation of the error callback. -/
def Effect.isErrorCb : Effect → Bool
  | Effect.cb_error _ => true
  | _ => false

/-- The effect is an access to the timers of the loop. -/
def Effect.isTimer : Effect → Bool
  | Effect.getTimerMgr => true
  | _ => false

/-- The user callbacks invoked so far, in order. -/
def TcpSocket.callbacks (s : TcpSocket) : List Effect := s.trace.filter Effect.isCallback

/-- What a call from inside a callback leaves alone: the read, write and error
callbacks installed, the fact of being destroyed, and the list of callbacks
invoked. -/
def TcpSocket.sameCallbacks (s t : TcpSocket) : Prop :=
  t.cb_read_ = s.cb_read_ ∧ t.cb_write_ = s.cb_write_ ∧ t.cb_error_ = s.cb_error_ ∧
    t.destroyed = s.destroyed ∧ t.callbacks = s.callbacks

/-- The socket in `ioReady`, state ST_OPEN, after the read step. -/
def TcpSocket.afterRead (env : Env) (s : TcpSocket) (events : Nat) : TcpSocket :=
  if TcpSocket.hasEvent events KUMA_EV_READ then TcpSocket.onReceive env s KUMA_ERROR_NOERR
  else s

/-- The OS reports a hard error of `::send` or `::recv`: the peer closed (result 0), or
the call failed with an error that is not EAGAIN or EWOULDBLOCK. -/
def Os.hardError (os : Os) : Prop :=
  os.io_ret = 0 ∨ (os.io_ret < 0 ∧ os.last_error ≠ EAGAIN ∧ os.last_error ≠ EWOULDBLOCK)

instance (os : Os) : Decidable os.hardError := by
  unfold Os.hardError
  infer_instance

/-- A socket without TLS: the flag is not set and there is no handler. -/
def TcpSocket.plain (s : TcpSocket) : Prop :=
  s.SslEnabled = false ∧ s.ssl_handler_ = none

instance (s : TcpSocket) : Decidable s.plain := by
  unfold TcpSocket.plain
  infer_instance

/-- A build without OpenSSL on an epoll loop. -/
def envPlain : Env := ⟨false, PollType.POLL_TYPE_EPOLL⟩

/-- OS results where every call succeeds: `::socket` gives descriptor 5 and an I/O call
transfers one byte. -/
def osOk : Os :=
  ⟨true, 5, 0, 0, 1, 0, KUMA_ERROR_NOERR, SslState.SSL_SUCCESS, 1⟩

/-- A callback that leaves the socket alone. -/
def cbIdle : Callback := fun _ => ⟨[], false⟩

/-- A freshly constructed socket with read, write and error callbacks installed. -/
def freshSocket : TcpSocket := TcpSocket.init (some cbIdle) (some cbIdle) (some cbIdle)

/-- OS results of a `::bind` that fails on a descriptor just created. -/
def osBindFails : Os := { osOk with bind_ret := -1, last_error := 98 }

/-- OS results of a `::connect` refused by the peer (ECONNREFUSED). -/
def osConnectRefused : Os := { osOk with connect_ret := -1, last_error := 111 }

/-- OS results of a `::connect` in progress (EINPROGRESS). -/
def osConnectInProgress : Os := { osOk with connect_ret := -1, last_error := 115 }

/-- OS results of a `::send` or `::recv` that fails with ECONNRESET. -/
def osReset : Os := { osOk with io_ret := -1, last_error := 104 }

/-- An open socket holding descriptor 7, with read, write and error callbacks. -/
def openSocket : TcpSocket := freshSocket.run envPlain [Call.attachFd 7 0 osOk]

end kuma

/-! ## Outcomes of I/O calls and further concrete sockets -/

namespace kuma

open KumaError State

/-- The OS reports that `::send`, `::writev` or `::recv` would block: the call failed
with EAGAIN or EWOULDBLOCK. -/
def Os.wouldBlock (os : Os) : Prop :=
  os.io_ret < 0 ∧ (os.last_error = EAGAIN ∨ os.last_error = EWOULDBLOCK)

instance (os : Os) : Decidable os.wouldBlock := by
  unfold Os.wouldBlock
  infer_instance

/-- The socket after a write that the OS took only in part, or not at all: on a loop
of poll type the descriptor is updated to the full network mask, which carries
the WRITE bit; otherwise nothing is done. -/
def TcpSocket.armedForWrite (env : Env) (s : TcpSocket) : TcpSocket :=
  if env.poll_type = PollType.POLL_TYPE_POLL then
    s.emit (Effect.updateFd s.fd_ KUMA_EV_NETWORK)
  else s

/-- The effects of `detachFd` on a socket: the descriptor is unregistered from the loop,
not to be closed, if it was registered, and the TLS handler is closed if there
is one. -/
def detachEffects (env : Env) (s : TcpSocket) : List Effect :=
  (if s.registered_ then [Effect.unregisterFd s.fd_ false] else []) ++
  (if env.has_openssl ∧ s.ssl_handler_.isSome then [Effect.ssl_close] else [])

/-- The effect closes or shuts down the descriptor `fd`. -/
def Effect.closes (fd : Int) : Effect → Bool
  | Effect.shutdown f => f == fd
  | Effect.closeFd f => f == fd
  | Effect.unregisterFd f close_fd => f == fd && close_fd
  | _ => false

/-- The user callbacks that `ioReady` invokes on an OPEN socket without TLS for an
event mask, in order: the read callback for the READ bit; then the error
callback with POLLERR for the ERROR bit, and otherwise the write callback for
the WRITE bit; each only if it is installed. -/
def expectedCallbacks (s : TcpSocket) (events : Nat) : List Effect :=
  (if TcpSocket.hasEvent events KUMA_EV_READ ∧ s.cb_read_.isSome then
    [Effect.cb_read KUMA_ERROR_NOERR] else []) ++
  (if TcpSocket.hasEvent events KUMA_EV_ERROR then
    (if s.cb_error_.isSome then [Effect.cb_error KUMA_ERROR_POLLERR] else [])
   else if TcpSocket.hasEvent events KUMA_EV_WRITE ∧ s.cb_write_.isSome then
    [Effect.cb_write KUMA_ERROR_NOERR]
   else [])

/-- The descriptor on which `connect_i` calls `::connect`: the one the socket holds, or
the one `::socket` has just given if it held none. -/
def TcpSocket.connectFd (s : TcpSocket) (os : Os) : Int :=
  if s.fd_ = INVALID_FD then os.sock else s.fd_

/-- The trace of `t` continues the trace of `s`. -/
def TcpSocket.extendsTrace (s t : TcpSocket) : Prop := ∃ l, t.trace = s.trace ++ l

/-- The invocations of the error callback so far. -/
def TcpSocket.errorCalls (s : TcpSocket) : List Effect := s.trace.filter Effect.isErrorCb

/-- The error callback has been invoked at most once, and if it has, the socket is
CLOSED. -/
def TcpSocket.errorOnce (s : TcpSocket) : Prop :=
  s.errorCalls.length ≤ 1 ∧ (s.errorCalls ≠ [] → s.state_ = ST_CLOSED)

/-- From `s` to `t` the error callback has not been invoked, or it has been invoked
once and `t` is CLOSED. -/
def TcpSocket.errorStep (s t : TcpSocket) : Prop :=
  t.errorCalls = s.errorCalls ∨
    (∃ e, t.errorCalls = s.errorCalls ++ [e]) ∧ t.state_ = ST_CLOSED

/-- The read, write and error callbacks installed are the same, and so are the flags. -/
def TcpSocket.sameInstalled (s t : TcpSocket) : Prop :=
  t.cb_read_ = s.cb_read_ ∧ t.cb_write_ = s.cb_write_ ∧ t.cb_error_ = s.cb_error_ ∧
    t.flags_ = s.flags_

/-- A build without OpenSSL on a loop of poll type, which is level-triggered. -/
def envPoll : Env := ⟨false, PollType.POLL_TYPE_POLL⟩

/-- OS results of a `::send` or `::writev` that takes 40 bytes. -/
def osPartial : Os := { osOk with io_ret := 40 }

/-- OS results of a `::send`, `::writev` or `::recv` that would block (EAGAIN). -/
def osWouldBlock : Os := { osOk with io_ret := -1, last_error := 11 }

/-- OS results of a `::recv` that finds the connection closed by the peer. -/
def osPeerClosed : Os := { osOk with io_ret := 0 }

/-- A callback that closes the socket it is called on. -/
def cbClose : Callback := fun _ => ⟨[ReCall.close], false⟩

end kuma

/-! ## Theorems on the WebSocket handshake -/

namespace kuma

namespace ws

open WSConnection_V1

theorem is_equal_WebSocket (a : String) : is_equal a "WebSocket" = is_equal a "websocket" := by
  unfold is_equal
  have h : "WebSocket".toList.map lowerChar = "websocket".toList.map lowerChar := by decide
  rw [h]

theorem empty_iff (s : String) : empty s = true ↔ s = "" := by
  cases s with
  | mk l =>
    cases l with
    | nil => simp [empty]
    | cons a t =>
      simp only [empty, String.toList, List.isEmpty_cons, Bool.false_eq_true, false_iff]
      intro h
      have h2 := congrArg String.data h
      simp at h2

theorem contains_token_empty (s tok : String) (h : empty s = true) (ht : empty tok = false) :
    contains_token s tok ',' = false := by
  rw [empty_iff] at h
  subst h
  cases tok with
  | mk l =>
    cases l with
    | nil => simp [empty] at ht
    | cons a t =>
      simp [contains_token, splitAt, trimBlanks, is_equal]

/-- The checks made by the code on a request are the requirements of the specification. -/
theorem checkUpgradeRequest_wellFormed (hs : HeaderVector) :
    (checkUpgradeRequest hs).1 = KMError.NOERR ↔ wellFormedRequest hs = true := by
  unfold checkUpgradeRequest wellFormedRequest
  rw [is_equal_WebSocket]
  simp only [kSecWebSocketVersion, kWebSocketVersion, kSecWebSocketKey]
  by_cases h1 : is_equal (getHeader hs "Upgrade") "websocket" = true <;>
  by_cases h2 : contains_token (getHeader hs "Connection") "Upgrade" ',' = true <;>
  by_cases h3 : contains_token (getHeader hs "Sec-WebSocket-Version") "13" ',' = true <;>
  by_cases h4 : empty (getHeader hs "Sec-WebSocket-Key") = true <;>
  by_cases h5 : empty (getHeader hs "Sec-WebSocket-Version") = true <;>
  simp [h1, h2, h3, h4, h5]
  all_goals
    have := contains_token_empty _ "13" h5 (by decide)
    simp_all

theorem checkUpgradeRequest_key (hs : HeaderVector)
    (h : (checkUpgradeRequest hs).1 = KMError.NOERR) :
    (checkUpgradeRequest hs).2 = some (getHeader hs kSecWebSocketKey) ∧
      empty (getHeader hs kSecWebSocketKey) = false := by
  unfold checkUpgradeRequest at h ⊢
  simp only [] at h ⊢
  by_cases h1 : (!is_equal (getHeader hs "Upgrade") "WebSocket" ||
      !contains_token (getHeader hs "Connection") "Upgrade" ',') = true
  · simp [h1] at h
  · by_cases h2 : (empty (getHeader hs kSecWebSocketVersion) ||
        !contains_token (getHeader hs kSecWebSocketVersion) kWebSocketVersion ',') = true
    · simp [h1, h2] at h
    · by_cases h3 : empty (getHeader hs kSecWebSocketKey) = true
      · simp [h1, h2, h3] at h
      · simp [h1, h2, h3]

theorem checkHandshakeStep_frame (c : WSConnection_V1) (kv : String × String) :
    sameButNegotiated c (checkHandshakeStep c kv) := by
  unfold checkHandshakeStep sameButNegotiated
  split_ifs <;> simp

theorem foldl_checkHandshakeStep_frame (l : HeaderVector) (c : WSConnection_V1) :
    sameButNegotiated c (l.foldl checkHandshakeStep c) := by
  induction l generalizing c with
  | nil => simp [sameButNegotiated]
  | cons kv t ih =>
    have h1 := checkHandshakeStep_frame c kv
    have h2 := ih (checkHandshakeStep c kv)
    simp only [List.foldl_cons]
    unfold sameButNegotiated at *
    obtain ⟨a1, a2, a3, a4, a5, a6⟩ := h1
    obtain ⟨b1, b2, b3, b4, b5, b6⟩ := h2
    exact ⟨b1.trans a1, b2.trans a2, b3.trans a3, b4.trans a4, b5.trans a5, b6.trans a6⟩

/-- Only the subprotocol and the extensions change in `checkHandshake`. -/
theorem checkHandshake_frame (c : WSConnection_V1) :
    sameButNegotiated c c.checkHandshake := by
  have h := foldl_checkHandshakeStep_frame c.stream_.incoming
    { c with subprotocol_ := "", extensions_ := "" }
  exact h

/-- C1, as the code has it: `handleUpgradeResponse` opens the connection exactly when
the status is 101, `Upgrade` is websocket and `Connection` has the token Upgrade,
and reports PROTO_ERROR otherwise, closing the stream; `Sec-WebSocket-Accept`
plays no part. -/
theorem C1_handleUpgradeResponse_ignores_accept (c : WSConnection_V1) :
    c.handleUpgradeResponse.state_ =
      (if upgradeAccepted c.stream_.status_code c.stream_.incoming = true then State.OPEN
       else State.IN_ERROR) ∧
    c.handleUpgradeResponse.notified = c.notified ++
      [if upgradeAccepted c.stream_.status_code c.stream_.incoming = true
       then Notify.open_cb KMError.NOERR else Notify.error_cb KMError.PROTO_ERROR] ∧
    c.handleUpgradeResponse.stream_.closed =
      (if upgradeAccepted c.stream_.status_code c.stream_.incoming = true
       then c.stream_.closed else true) := by
  obtain ⟨f1, f2, f3, f4, f5, f6⟩ := checkHandshake_frame c
  unfold handleUpgradeResponse upgradeAccepted
  simp only [is_equal_WebSocket]
  by_cases h0 : c.stream_.status_code = 101 <;>
  by_cases h1 : is_equal (getHeader c.stream_.incoming "Upgrade") "websocket" = true <;>
  by_cases h2 : contains_token (getHeader c.stream_.incoming "Connection") "Upgrade" ',' = true <;>
  simp [h0, h1, h2, onStateOpen, base_onStateOpen, onStateError, base_onStateError, cleanup,
    setState, H1xStream.close, f1, f2, f6]

set_option maxRecDepth 100000 in
/-- C1, counterexample: the client has sent the key of `connect_i`; a response with
status 101, `Upgrade: websocket`, `Connection: Upgrade` and no
`Sec-WebSocket-Accept`, or one that does not answer the key, opens the
connection, and no error is reported. -/
theorem C1_counterexample_open_without_accept :
    (sampleClient.stream_.requests.map
        (fun r => getHeader r.headers kSecWebSocketKey) = [sampleKey]) ∧
    getHeader responseNoAccept kSecWebSocketAccept = "" ∧
    getHeader responseNoAccept kSecWebSocketAccept ≠
      base64_sha1 (sampleKey ++ "258EAFA5-E914-47DA-95CA-C5AB0DC85B11") ∧
    (sampleClient.receiveHeaders 101 responseNoAccept KMError.NOERR).state_ = State.OPEN ∧
    (sampleClient.receiveHeaders 101 responseNoAccept KMError.NOERR).notified =
      [Notify.open_cb KMError.NOERR] ∧
    getHeader responseBadAccept kSecWebSocketAccept ≠
      base64_sha1 (sampleKey ++ "258EAFA5-E914-47DA-95CA-C5AB0DC85B11") ∧
    (sampleClient.receiveHeaders 101 responseBadAccept KMError.NOERR).state_ = State.OPEN ∧
    (sampleClient.receiveHeaders 101 responseBadAccept KMError.NOERR).notified =
      [Notify.open_cb KMError.NOERR] := by
  refine ⟨by decide, by decide, ?_, by decide, by decide, ?_, by decide, by decide⟩ <;>
  decide

set_option maxRecDepth 100000 in
/-- C2, the code at a malformed request: with a handshake callback installed and a
request whose `Upgrade` header is not websocket, `handleUpgradeRequest` sends no
response at all (no `400 Bad Request`) and the connection stays UPGRADING. -/
theorem C2_malformed_request_gets_no_response :
    wellFormedRequest malformedRequest = false ∧
    ((sampleServer true).handshake_cb_.isSome = true) ∧
    ((sampleServer true).receiveHeaders 0 malformedRequest KMError.NOERR).stream_.responses
      = [] ∧
    ((sampleServer true).receiveHeaders 0 malformedRequest KMError.NOERR).state_
      = State.UPGRADING ∧
    ((sampleServer true).receiveHeaders 0 malformedRequest KMError.NOERR).stream_.closed
      = false := by
  refine ⟨by decide, by decide, by decide, by decide, by decide⟩

/-- On a malformed request nothing is sent, whatever the callback answers. -/
theorem malformed_request_sends_nothing (c : WSConnection_V1) (send_ret : KMError)
    (h : wellFormedRequest c.stream_.incoming = false) :
    (c.handleUpgradeRequest send_ret).stream_.responses = c.stream_.responses := by
  have hw := checkUpgradeRequest_wellFormed c.stream_.incoming
  have herr : (checkUpgradeRequest c.stream_.incoming).1 ≠ KMError.NOERR := by
    intro h2
    rw [hw.mp h2] at h
    exact Bool.noConfusion h
  unfold handleUpgradeRequest
  simp only []
  generalize hc1 : (match (checkUpgradeRequest c.stream_.incoming).2 with
    | some key => ({ c with origin_ := getHeader c.stream_.incoming "Origin",
                            sec_ws_key_ := key } : WSConnection_V1)
    | none => { c with origin_ := getHeader c.stream_.incoming "Origin" }) = c1
  have hs1 : c1.stream_ = c.stream_ := by
    rw [← hc1]; split <;> rfl
  cases hcb : c1.handshake_cb_ with
  | none => simp [hs1]
  | some cb =>
    simp only [herr, false_and, if_false]
    obtain ⟨f1, -⟩ := checkHandshake_frame c1
    cases (cb (checkUpgradeRequest c.stream_.incoming).1).action <;>
      simp [applyCbAction, close, cleanup, setState, H1xStream.close, f1, hs1]

theorem afterChecks_frame (c : WSConnection_V1) :
    (afterChecks c).stream_ = c.stream_ ∧ (afterChecks c).state_ = c.state_ ∧
    (afterChecks c).sec_ws_key_ = getHeader c.stream_.incoming kSecWebSocketKey ∧
    (afterChecks c).destroyed = c.destroyed ∧ (afterChecks c).notified = c.notified := by
  obtain ⟨f1, f2, f3, f4, f5, f6⟩ := checkHandshake_frame
    { c with origin_ := getHeader c.stream_.incoming "Origin",
             sec_ws_key_ := getHeader c.stream_.incoming kSecWebSocketKey }
  exact ⟨f1, f2, f3, f5, f6⟩

/-- For a well-formed request and a callback that leaves the connection alone and
UPGRADING, `handleUpgradeRequest` comes down to `sendUpgradeResponse` with 101 or 403. -/
theorem handleUpgradeRequest_wellFormed (c : WSConnection_V1)
    (cb : KMError → HandshakeResult) (send_ret : KMError)
    (h_cb : c.handshake_cb_ = some cb)
    (h_ok : wellFormedRequest c.stream_.incoming = true)
    (h_act : (cb KMError.NOERR).action = CbAction.nothing)
    (h_st : c.state_ = State.UPGRADING) (h_nd : c.destroyed = false) :
    c.handleUpgradeRequest send_ret =
      (let sd : Int × String :=
        if (cb KMError.NOERR).rv = true then (101, "Switching Protocols") else (403, "Forbidden")
       let rc := (afterChecks c).sendUpgradeResponse sd.1 sd.2 send_ret
       if rc.1 ≠ KMError.NOERR then rc.2.onStateError rc.1 else rc.2) := by
  have herr := (checkUpgradeRequest_wellFormed c.stream_.incoming).mpr h_ok
  obtain ⟨hkey, -⟩ := checkUpgradeRequest_key c.stream_.incoming herr
  obtain ⟨stream, state, origin, subp, exts, key, hcb, destroyed, notified⟩ := c
  simp only at h_cb h_st h_nd herr hkey
  subst h_cb h_st h_nd
  unfold handleUpgradeRequest afterChecks
  simp only [hkey, herr]
  obtain ⟨g1, g2, g3, g4, g5, g6⟩ := checkHandshake_frame
    { stream_ := stream, state_ := State.UPGRADING,
      origin_ := getHeader stream.incoming "Origin", subprotocol_ := subp,
      extensions_ := exts, sec_ws_key_ := getHeader stream.incoming kSecWebSocketKey,
      handshake_cb_ := some cb, destroyed := false, notified := notified }
  simp only [g4, h_act, applyCbAction, g5, getState, g2]
  cases hrv : (cb KMError.NOERR).rv <;> simp

/-- Whatever stream event reaches `onError`, the stream is closed, the connection is
IN_ERROR and the user is told the error; what was sent stays as it is. -/
theorem onError_effect (c : WSConnection_V1) (err : KMError) :
    (c.onError err).stream_.closed = true ∧ (c.onError err).state_ = State.IN_ERROR ∧
    (c.onError err).notified = c.notified ++ [Notify.error_cb err] ∧
    (c.onError err).stream_.responses = c.stream_.responses := by
  simp [onError, onStateError, base_onStateError, cleanup, setState, H1xStream.close]

/-- For a key that is not empty, `generate_sec_accept_value` is the
`base64(SHA1(k ++ guid))` of the specification. -/
theorem generate_sec_accept_value_eq (k : String) (h : empty k = false) :
    generate_sec_accept_value k =
      base64_sha1 (k ++ "258EAFA5-E914-47DA-95CA-C5AB0DC85B11") := by
  simp [generate_sec_accept_value, h, base64_sha1, sec_accept_guid]

set_option maxRecDepth 100000 in
/-- The example of RFC 6455, section 1.3. -/
theorem base64_sha1_sample :
    base64_sha1 ("dGhlIHNhbXBsZSBub25jZQ==" ++ "258EAFA5-E914-47DA-95CA-C5AB0DC85B11") =
      "s3pPLMBiTxaQ9kYGzzhZRbK+xOo=" := by
  decide

/-- What `sendUpgradeResponse(101, desc)` does when the response is sent. -/
theorem sendUpgradeResponse_101 (c : WSConnection_V1) (desc : String) :
    (c.sendUpgradeResponse 101 desc KMError.NOERR).1 = KMError.NOERR ∧
    (c.sendUpgradeResponse 101 desc KMError.NOERR).2.stream_.responses =
      c.stream_.responses ++ [⟨101, desc, "HTTP/1.1", c.stream_.outgoing ++ upgradeHeaders c⟩] ∧
    (c.sendUpgradeResponse 101 desc KMError.NOERR).2.state_ = State.OPEN := by
  by_cases h1 : empty c.subprotocol_ = true <;> by_cases h2 : empty c.extensions_ = true <;>
    simp [sendUpgradeResponse, WSConnection_V1.addHeader, H1xStream.addHeader,
      H1xStream.sendResponse, setState, onStateOpen, base_onStateOpen, upgradeHeaders,
      kSecWebSocketVersion, kWebSocketVersion, kSecWebSocketAccept, strUpgrade,
      kSecWebSocketProtocol, kSecWebSocketExtensions, h1, h2]

/-- C4: a well-formed request with key `k`, a handshake callback that answers true
and leaves the connection UPGRADING, the response sent: exactly one response is
emitted, with status 101 and description Switching Protocols, carrying
`Upgrade: websocket`, `Connection: Upgrade`, `Sec-WebSocket-Version: 13` and
`Sec-WebSocket-Accept: base64(SHA1(k ++ guid))`, and the connection is OPEN. -/
theorem C4_accepted_gets_101 (c : WSConnection_V1) (cb : KMError → HandshakeResult)
    (k : String)
    (h_cb : c.handshake_cb_ = some cb)
    (h_ok : wellFormedRequest c.stream_.incoming = true)
    (h_k : getHeader c.stream_.incoming "Sec-WebSocket-Key" = k)
    (h_rv : (cb KMError.NOERR).rv = true)
    (h_act : (cb KMError.NOERR).action = CbAction.nothing)
    (h_st : c.state_ = State.UPGRADING) (h_nd : c.destroyed = false) :
    ∃ r : Response,
      (c.handleUpgradeRequest KMError.NOERR).stream_.responses = c.stream_.responses ++ [r] ∧
      r.status_code = 101 ∧ r.desc = "Switching Protocols" ∧
      ("Upgrade", "websocket") ∈ r.headers ∧
      ("Connection", "Upgrade") ∈ r.headers ∧
      ("Sec-WebSocket-Version", "13") ∈ r.headers ∧
      ("Sec-WebSocket-Accept",
        base64_sha1 (k ++ "258EAFA5-E914-47DA-95CA-C5AB0DC85B11")) ∈ r.headers ∧
      (c.handleUpgradeRequest KMError.NOERR).state_ = State.OPEN := by
  rw [handleUpgradeRequest_wellFormed c cb KMError.NOERR h_cb h_ok h_act h_st h_nd]
  obtain ⟨f1, f2, f3, f5, f6⟩ := afterChecks_frame c
  have herr := (checkUpgradeRequest_wellFormed c.stream_.incoming).mpr h_ok
  obtain ⟨-, hne⟩ := checkUpgradeRequest_key c.stream_.incoming herr
  have hk : kSecWebSocketKey = "Sec-WebSocket-Key" := rfl
  rw [hk] at f3 hne
  rw [h_k] at f3 hne
  have hacc := generate_sec_accept_value_eq k hne
  obtain ⟨s1, s2, s3⟩ := sendUpgradeResponse_101 (afterChecks c) "Switching Protocols"
  simp only [h_rv, if_true, s1, ne_eq, not_true_eq_false, if_false]
  refine ⟨⟨101, "Switching Protocols", "HTTP/1.1",
    c.stream_.outgoing ++ upgradeHeaders (afterChecks c)⟩, ?_, rfl, rfl, ?_, ?_, ?_, ?_, s3⟩
  · rw [s2, f1]
  all_goals simp [upgradeHeaders, f3, hacc]

set_option maxRecDepth 100000 in
/-- C4, witness: the request of the RFC example, accepted by the callback, is answered
101 Switching Protocols with `Sec-WebSocket-Accept: s3pPLMBiTxaQ9kYGzzhZRbK+xOo=`. -/
theorem C4_accepted_gets_101_witness :
    wellFormedRequest sampleRequest = true ∧
    ∃ r : Response,
      ((sampleServer true).receiveHeaders 0 sampleRequest KMError.NOERR).stream_.responses
        = [r] ∧
      r.status_code = 101 ∧ r.desc = "Switching Protocols" ∧
      ("Upgrade", "websocket") ∈ r.headers ∧
      ("Connection", "Upgrade") ∈ r.headers ∧
      ("Sec-WebSocket-Version", "13") ∈ r.headers ∧
      ("Sec-WebSocket-Accept", "s3pPLMBiTxaQ9kYGzzhZRbK+xOo=") ∈ r.headers ∧
      ((sampleServer true).receiveHeaders 0 sampleRequest KMError.NOERR).state_
        = State.OPEN :=
  ⟨by decide,
   base64_sha1_sample ▸
    C4_accepted_gets_101
      { sampleServer true with
        stream_ := { (sampleServer true).stream_ with
                     status_code := 0, incoming := sampleRequest } }
      (fun _ => ⟨true, CbAction.nothing⟩) "dGhlIHNhbXBsZSBub25jZQ=="
      rfl (by decide) (by decide) rfl rfl rfl rfl⟩

end ws

end kuma

/-! ## Theorems on TcpSocket -/

namespace kuma

open KumaError State

namespace TcpSocket

@[simp] theorem emit_state (s : TcpSocket) (e : Effect) : (s.emit e).state_ = s.state_ := rfl
@[simp] theorem emit_fd (s : TcpSocket) (e : Effect) : (s.emit e).fd_ = s.fd_ := rfl
@[simp] theorem emit_registered (s : TcpSocket) (e : Effect) :
    (s.emit e).registered_ = s.registered_ := rfl
@[simp] theorem emit_flags (s : TcpSocket) (e : Effect) : (s.emit e).flags_ = s.flags_ := rfl
@[simp] theorem emit_ssl (s : TcpSocket) (e : Effect) :
    (s.emit e).ssl_handler_ = s.ssl_handler_ := rfl
@[simp] theorem emit_cb_error (s : TcpSocket) (e : Effect) :
    (s.emit e).cb_error_ = s.cb_error_ := rfl
@[simp] theorem emit_trace (s : TcpSocket) (e : Effect) : (s.emit e).trace = s.trace ++ [e] := rfl
@[simp] theorem setState_state (s : TcpSocket) (st : State) : (s.setState st).state_ = st := rfl
@[simp] theorem setState_fd (s : TcpSocket) (st : State) : (s.setState st).fd_ = s.fd_ := rfl
@[simp] theorem setState_registered (s : TcpSocket) (st : State) :
    (s.setState st).registered_ = s.registered_ := rfl
@[simp] theorem setState_trace (s : TcpSocket) (st : State) :
    (s.setState st).trace = s.trace := rfl
@[simp] theorem setState_cb_error (s : TcpSocket) (st : State) :
    (s.setState st).cb_error_ = s.cb_error_ := rfl
@[simp] theorem getState_eq (s : TcpSocket) : s.getState = s.state_ := rfl

theorem invalid_fd_eq (fd : Int) : INVALID_FD = fd ↔ fd = INVALID_FD := eq_comm

/-- What `cleanup` does, field by field. -/
theorem cleanup_eq (env : Env) (s : TcpSocket) :
    cleanup env s =
      { s with
        fd_ := INVALID_FD
        registered_ := decide (s.fd_ = INVALID_FD) && s.registered_
        ssl_handler_ := if env.has_openssl then none else s.ssl_handler_
        trace := s.trace ++ cleanupEffects env s } := by
  obtain ⟨fd, st, reg, fl, ssl, c1, c2, c3, c4, d, tr⟩ := s
  simp only [cleanup, emit, cleanupEffects]
  by_cases h1 : env.has_openssl = true <;> by_cases h2 : fd = INVALID_FD <;>
    cases reg <;> cases ssl <;> simp [h1, h2, invalid_fd_eq]

@[simp] theorem cleanup_state (env : Env) (s : TcpSocket) : (cleanup env s).state_ = s.state_ := by
  rw [cleanup_eq]

@[simp] theorem cleanup_fd (env : Env) (s : TcpSocket) : (cleanup env s).fd_ = INVALID_FD := by
  rw [cleanup_eq]

@[simp] theorem cleanup_registered (env : Env) (s : TcpSocket) :
    (cleanup env s).registered_ = (decide (s.fd_ = INVALID_FD) && s.registered_) := by
  rw [cleanup_eq]

@[simp] theorem cleanup_cb_error (env : Env) (s : TcpSocket) :
    (cleanup env s).cb_error_ = s.cb_error_ := by
  rw [cleanup_eq]

@[simp] theorem cleanup_trace (env : Env) (s : TcpSocket) :
    (cleanup env s).trace = s.trace ++ cleanupEffects env s := by
  rw [cleanup_eq]

@[simp] theorem cleanup_destroyed (env : Env) (s : TcpSocket) :
    (cleanup env s).destroyed = s.destroyed := by
  rw [cleanup_eq]

theorem rank_le_closed (a : State) : a.rank ≤ ST_CLOSED.rank := by
  cases a <;> decide

theorem startSslHandshake_frame (env : Env) (s : TcpSocket) (is_server : Bool) (os : Os) :
    (startSslHandshake env s is_server os).2.state_ = s.state_ ∧
    (startSslHandshake env s is_server os).2.fd_ = s.fd_ ∧
    (startSslHandshake env s is_server os).2.registered_ = s.registered_ ∧
    (startSslHandshake env s is_server os).2.destroyed = s.destroyed := by
  obtain ⟨fd, st, reg, fl, ssl, c1, c2, c3, c4, d, tr⟩ := s
  simp only [startSslHandshake, emit]
  split_ifs <;> simp

theorem bind_state (env : Env) (s : TcpSocket) (os : Os) :
    (bind env s os).2.state_ = s.state_ := by
  simp only [bind]
  split_ifs <;> simp

theorem connect_state (env : Env) (s : TcpSocket) (cb : Option Callback) (flags timeout : Nat)
    (os : Os) :
    (connect env s cb flags timeout os).2.state_ = s.state_ ∨
    (s.state_ = ST_IDLE ∧
      ((connect env s cb flags timeout os).2.state_ = ST_CONNECTING ∨
       (connect env s cb flags timeout os).2.state_ = ST_CLOSED)) := by
  simp only [connect, connect_i, getState_eq, registerNetwork]
  split_ifs <;> simp_all

theorem attachFd_state (env : Env) (s : TcpSocket) (fd : Int) (flags : Nat) (os : Os) :
    (attachFd env s fd flags os).2.state_ = s.state_ ∨
    (s.state_ = ST_IDLE ∧ (attachFd env s fd flags os).2.state_ = ST_OPEN) := by
  simp only [attachFd, getState_eq, registerNetwork]
  split_ifs <;> simp_all [(startSslHandshake_frame _ _ _ _).1]

theorem detachFd_state (env : Env) (s : TcpSocket) :
    (detachFd env s).2.2.state_ = ST_CLOSED := by
  simp [detachFd]

theorem close_state (env : Env) (s : TcpSocket) : (close env s).2.state_ = ST_CLOSED := by
  simp [close]

theorem send_state (env : Env) (s : TcpSocket) (length : Nat) (os : Os) :
    (send env s length os).2.state_ = s.state_ ∨
    (s.state_ = ST_OPEN ∧ (send env s length os).2.state_ = ST_CLOSED) := by
  simp only [send, isReady, getState_eq]
  split_ifs <;> simp_all

theorem sendv_state (env : Env) (s : TcpSocket) (count : Nat) (os : Os) :
    (sendv env s count os).2.state_ = s.state_ ∨
    (s.state_ = ST_OPEN ∧ (sendv env s count os).2.state_ = ST_CLOSED) := by
  simp only [sendv, isReady, getState_eq]
  split_ifs <;> simp_all

theorem receive_state (env : Env) (s : TcpSocket) (os : Os) :
    (receive env s os).2.state_ = s.state_ ∨
    (s.state_ = ST_OPEN ∧ (receive env s os).2.state_ = ST_CLOSED) := by
  simp only [receive, isReady, getState_eq]
  split_ifs <;> simp_all

theorem reCall_rank (env : Env) (s : TcpSocket) (c : ReCall) :
    s.state_.rank ≤ (reCall env s c).state_.rank := by
  cases c with
  | bind os => simp [reCall, bind_state]
  | connect flags timeout os =>
    rcases connect_state env s none flags timeout os with h | ⟨h1, h2 | h2⟩ <;>
      simp [reCall, *, State.rank]
  | attachFd fd flags os =>
    rcases attachFd_state env s fd flags os with h | ⟨h1, h2⟩ <;>
      simp [reCall, *, State.rank]
  | detachFd => simp [reCall, detachFd_state, rank_le_closed]
  | send length os =>
    rcases send_state env s length os with h | ⟨h1, h2⟩ <;> simp [reCall, *, State.rank]
  | sendv count os =>
    rcases sendv_state env s count os with h | ⟨h1, h2⟩ <;> simp [reCall, *, State.rank]
  | receive os =>
    rcases receive_state env s os with h | ⟨h1, h2⟩ <;> simp [reCall, *, State.rank]
  | close => simp [reCall, close_state, rank_le_closed]

theorem foldl_reCall_rank (env : Env) (l : List ReCall) (s : TcpSocket) :
    s.state_.rank ≤ (l.foldl (reCall env) s).state_.rank := by
  induction l generalizing s with
  | nil => simp
  | cons c t ih => exact le_trans (reCall_rank env s c) (ih _)

theorem destructor_state (env : Env) (s : TcpSocket) : (destructor env s).state_ = s.state_ := by
  simp [destructor]

theorem runScript_rank (env : Env) (s : TcpSocket) (sc : Script) :
    s.state_.rank ≤ (runScript env s sc).state_.rank := by
  simp only [runScript]
  split_ifs
  · rw [destructor_state]; exact foldl_reCall_rank env _ s
  · exact foldl_reCall_rank env _ s

theorem closeIfError_rank (env : Env) (s : TcpSocket) (err : KumaError) :
    s.state_.rank ≤
      (if err ≠ KUMA_ERROR_NOERR then (cleanup env s).setState ST_CLOSED else s).state_.rank := by
  split_ifs <;> simp [rank_le_closed]

theorem onConnectFinish_rank (env : Env) (s : TcpSocket) (err : KumaError) :
    s.state_.rank ≤ (onConnectFinish env s err).state_.rank := by
  simp only [onConnectFinish]
  split
  · refine le_trans ?_ (runScript_rank env _ _)
    exact closeIfError_rank env s err
  · exact closeIfError_rank env s err

theorem onConnect_rank (env : Env) (s : TcpSocket) (err : KumaError) (os : Os)
    (h : s.state_ = ST_CONNECTING) :
    s.state_.rank ≤ (onConnect env s err os).state_.rank := by
  simp only [onConnect]
  split_ifs
  · rw [(startSslHandshake_frame _ _ _ _).1]; simp [h, State.rank]
  · refine le_trans ?_ (onConnectFinish_rank env _ _)
    rw [(startSslHandshake_frame _ _ _ _).1]; simp [h, State.rank]
  · refine le_trans ?_ (onConnectFinish_rank env _ _)
    simp [h, State.rank]
  · exact onConnectFinish_rank env _ _

theorem onReceive_rank (env : Env) (s : TcpSocket) (err : KumaError) :
    s.state_.rank ≤ (onReceive env s err).state_.rank := by
  simp only [onReceive]
  split
  · split_ifs
    · refine le_trans ?_ (runScript_rank env _ _)
      exact le_refl _
    · exact le_refl _
  · exact le_refl _

theorem onSend_rank (env : Env) (s : TcpSocket) (err : KumaError) :
    s.state_.rank ≤ (onSend env s err).state_.rank := by
  simp only [onSend]
  generalize hs1 : (if env.poll_type = PollType.POLL_TYPE_POLL then
      s.emit (Effect.updateFd s.fd_ (KUMA_EV_READ ||| KUMA_EV_ERROR)) else s) = s1
  have h : s1.state_ = s.state_ := by
    rw [← hs1]; split_ifs <;> rfl
  rw [← h]
  split
  · split_ifs
    · refine le_trans ?_ (runScript_rank env _ _)
      exact le_refl _
    · exact le_refl _
  · exact le_refl _

theorem onClose_rank (env : Env) (s : TcpSocket) (err : KumaError) :
    s.state_.rank ≤ (onClose env s err).state_.rank := by
  simp only [onClose]
  split
  · refine le_trans ?_ (runScript_rank env _ _)
    exact rank_le_closed _
  · exact rank_le_closed _

theorem ioReadyOpen_rank (env : Env) (s : TcpSocket) (events : Nat) :
    s.state_.rank ≤ (ioReadyOpen env s events).state_.rank := by
  simp only [ioReadyOpen]
  generalize hs1 : (if hasEvent events KUMA_EV_READ = true then
      onReceive env s KUMA_ERROR_NOERR else s) = s1
  have h1 : s.state_.rank ≤ s1.state_.rank := by
    rw [← hs1]
    split_ifs
    · exact onReceive_rank env s _
    · exact le_refl _
  split_ifs
  · exact h1
  · exact le_trans h1 (onClose_rank env _ _)
  · exact le_trans h1 (onSend_rank env _ _)
  · exact h1

theorem ioReadyHandshakeDone_rank (env : Env) (s : TcpSocket) (events : Nat)
    (err : KumaError) :
    s.state_.rank ≤ (ioReadyHandshakeDone env s events err).1.state_.rank := by
  simp only [ioReadyHandshakeDone]
  split
  · refine le_trans ?_ (runScript_rank env _ _)
    exact le_refl _
  · split_ifs
    · exact onClose_rank env _ _
    · exact le_refl _

theorem ioReadyHandshake_rank (env : Env) (s : TcpSocket) (events : Nat) (os : Os) :
    s.state_.rank ≤ (ioReadyHandshake env s events os).1.state_.rank := by
  simp only [ioReadyHandshake]
  split_ifs
  · exact ioReadyHandshakeDone_rank env s events _
  · exact ioReadyHandshakeDone_rank env { s with ssl_handler_ := some os.ssl_handshake } events _
  · exact le_refl _
  · exact ioReadyHandshakeDone_rank env { s with ssl_handler_ := some os.ssl_handshake } events _

theorem ioReady_rank (env : Env) (s : TcpSocket) (events : Nat) (os : Os) :
    s.state_.rank ≤ (ioReady env s events os).state_.rank := by
  simp only [ioReady, getState_eq]
  split
  · rename_i h
    split_ifs
    · exact onConnect_rank env s _ os h
    · exact onConnect_rank env s _ os h
    · exact le_trans (onConnect_rank env s _ os h) (onReceive_rank env _ _)
    · exact onConnect_rank env s _ os h
  · split_ifs
    · exact ioReadyHandshake_rank env s events os
    · exact le_trans (ioReadyHandshake_rank env s events os) (ioReadyOpen_rank env _ _)
    · exact ioReadyOpen_rank env s events
  · exact le_refl _

theorem call_rank (env : Env) (s : TcpSocket) (c : Call) :
    s.state_.rank ≤ (s.call env c).state_.rank := by
  cases c with
  | bind os => exact reCall_rank env s (ReCall.bind os)
  | connect cb flags timeout os =>
    rcases connect_state env s cb flags timeout os with h | ⟨h1, h2 | h2⟩ <;>
      simp [TcpSocket.call, *, State.rank]
  | attachFd fd flags os => exact reCall_rank env s (ReCall.attachFd fd flags os)
  | detachFd => exact reCall_rank env s ReCall.detachFd
  | send length os => exact reCall_rank env s (ReCall.send length os)
  | sendv count os => exact reCall_rank env s (ReCall.sendv count os)
  | receive os => exact reCall_rank env s (ReCall.receive os)
  | close => exact reCall_rank env s ReCall.close
  | ioReady events os => exact ioReady_rank env s events os

/-! ### The registration invariant -/

theorem cleanup_inv (env : Env) (s : TcpSocket) (h : registeredHasFd s) :
    (cleanup env s).registered_ = false := by
  rw [cleanup_registered]
  unfold registeredHasFd at h
  by_cases h1 : s.fd_ = INVALID_FD
  · cases hr : s.registered_
    · simp
    · exact absurd h1 (h hr)
  · simp [h1]

theorem bind_inv (env : Env) (s : TcpSocket) (os : Os) (h : registeredHasFd s) :
    registeredHasFd (bind env s os).2 := by
  have hc := cleanup_inv env s h
  unfold registeredHasFd at *
  simp only [bind, getState_eq]
  split_ifs <;> simp_all [invalid_fd_eq]

theorem connect_inv (env : Env) (s : TcpSocket) (cb : Option Callback) (flags timeout : Nat)
    (os : Os) (h : registeredHasFd s) :
    registeredHasFd (connect env s cb flags timeout os).2 := by
  unfold registeredHasFd at *
  simp only [connect, connect_i, getState_eq, registerNetwork]
  split_ifs <;> simp_all [invalid_fd_eq]

theorem attachFd_inv (env : Env) (s : TcpSocket) (fd : Int) (flags : Nat) (os : Os)
    (h : registeredHasFd s) (hfd : fd ≠ INVALID_FD ∨ s.state_ ≠ ST_IDLE) :
    registeredHasFd (attachFd env s fd flags os).2 := by
  unfold registeredHasFd at *
  simp only [attachFd, getState_eq, registerNetwork]
  split_ifs <;> simp_all [startSslHandshake_frame]

theorem detachFd_inv (env : Env) (s : TcpSocket) :
    registeredHasFd (detachFd env s).2.2 := by
  unfold registeredHasFd
  simp only [detachFd]
  split_ifs <;> simp_all

theorem close_inv (env : Env) (s : TcpSocket) (h : registeredHasFd s) :
    registeredHasFd (close env s).2 := by
  have hc := cleanup_inv env s h
  unfold registeredHasFd
  simp only [close, setState_registered, hc]
  intro h2
  exact Bool.noConfusion h2

theorem send_inv (env : Env) (s : TcpSocket) (length : Nat) (os : Os)
    (h : registeredHasFd s) : registeredHasFd (send env s length os).2 := by
  have hc := cleanup_inv env s h
  unfold registeredHasFd at *
  simp only [send]
  split_ifs <;> simp_all

theorem sendv_inv (env : Env) (s : TcpSocket) (count : Nat) (os : Os)
    (h : registeredHasFd s) : registeredHasFd (sendv env s count os).2 := by
  have hc := cleanup_inv env s h
  unfold registeredHasFd at *
  simp only [sendv]
  split_ifs <;> simp_all

theorem receive_inv (env : Env) (s : TcpSocket) (os : Os)
    (h : registeredHasFd s) : registeredHasFd (receive env s os).2 := by
  have hc := cleanup_inv env s h
  unfold registeredHasFd at *
  simp only [receive]
  split_ifs <;> simp_all

theorem not_idle_of_rank {a b : State} (h : a ≠ ST_IDLE) (hr : a.rank ≤ b.rank) :
    b ≠ ST_IDLE := by
  cases a <;> cases b <;> simp_all [State.rank]

theorem reCall_good (env : Env) (s : TcpSocket) (c : ReCall) (h : Good s) :
    Good (reCall env s c) := by
  refine ⟨?_, not_idle_of_rank h.2 (reCall_rank env s c)⟩
  cases c with
  | bind os => exact bind_inv env s os h.1
  | connect flags timeout os => exact connect_inv env s none flags timeout os h.1
  | attachFd fd flags os => exact attachFd_inv env s fd flags os h.1 (Or.inr h.2)
  | detachFd => exact detachFd_inv env s
  | send length os => exact send_inv env s length os h.1
  | sendv count os => exact sendv_inv env s count os h.1
  | receive os => exact receive_inv env s os h.1
  | close => exact close_inv env s h.1

theorem foldl_reCall_good (env : Env) (l : List ReCall) (s : TcpSocket) (h : Good s) :
    Good (l.foldl (reCall env) s) := by
  induction l generalizing s with
  | nil => exact h
  | cons c t ih => exact ih _ (reCall_good env s c h)

theorem destructor_good (env : Env) (s : TcpSocket) (h : Good s) : Good (destructor env s) := by
  have hc := cleanup_inv env { s with destroyed := true } h.1
  refine ⟨?_, ?_⟩
  · unfold registeredHasFd
    simp only [destructor, hc]
    intro h2
    exact Bool.noConfusion h2
  · rw [destructor_state]; exact h.2

theorem runScript_good (env : Env) (s : TcpSocket) (sc : Script) (h : Good s) :
    Good (runScript env s sc) := by
  simp only [runScript]
  split_ifs
  · exact destructor_good env _ (foldl_reCall_good env _ s h)
  · exact foldl_reCall_good env _ s h

theorem isReady_open (env : Env) (s : TcpSocket) (h : isReady env s = true) :
    s.state_ = ST_OPEN := by
  simp only [isReady, getState_eq, Bool.and_eq_true, decide_eq_true_eq] at h
  exact h.1

theorem closed_good (env : Env) (s : TcpSocket) (h : registeredHasFd s) :
    Good ((cleanup env s).setState ST_CLOSED) := by
  have hc := cleanup_inv env s h
  refine ⟨?_, by simp⟩
  unfold registeredHasFd
  simp only [setState_registered, hc]
  intro h2
  exact Bool.noConfusion h2

theorem onReceive_inv (env : Env) (s : TcpSocket) (err : KumaError) (h : registeredHasFd s) :
    registeredHasFd (onReceive env s err) := by
  simp only [onReceive]
  split
  · split_ifs with hr
    · have ho := isReady_open env s hr
      refine (runScript_good env _ _ ⟨?_, ?_⟩).1
      · exact h
      · simp [ho]
    · exact h
  · exact h

theorem onSend_inv (env : Env) (s : TcpSocket) (err : KumaError) (h : registeredHasFd s) :
    registeredHasFd (onSend env s err) := by
  simp only [onSend]
  generalize hs1 : (if env.poll_type = PollType.POLL_TYPE_POLL then
      s.emit (Effect.updateFd s.fd_ (KUMA_EV_READ ||| KUMA_EV_ERROR)) else s) = s1
  have h1 : registeredHasFd s1 := by
    rw [← hs1]; split_ifs
    · exact h
    · exact h
  split
  · split_ifs with hr
    · have ho := isReady_open env s1 hr
      refine (runScript_good env _ _ ⟨?_, ?_⟩).1
      · exact h1
      · simp [ho]
    · exact h1
  · exact h1

theorem onClose_inv (env : Env) (s : TcpSocket) (err : KumaError) (h : registeredHasFd s) :
    registeredHasFd (onClose env s err) := by
  have hg := closed_good env s h
  simp only [onClose]
  split
  · refine (runScript_good env _ _ ?_).1
    exact hg
  · exact hg.1

theorem closeIfError_good (env : Env) (s : TcpSocket) (err : KumaError) (h : Good s) :
    Good (if err ≠ KUMA_ERROR_NOERR then (cleanup env s).setState ST_CLOSED else s) := by
  split_ifs
  · exact closed_good env s h.1
  · exact h

theorem onConnectFinish_inv (env : Env) (s : TcpSocket) (err : KumaError) (h : Good s) :
    registeredHasFd (onConnectFinish env s err) := by
  have hg := closeIfError_good env s err h
  simp only [onConnectFinish]
  split
  · refine (runScript_good env _ _ ?_).1
    exact hg
  · exact hg.1

theorem startSslHandshake_good (env : Env) (s : TcpSocket) (is_server : Bool) (os : Os)
    (h : Good s) : Good (startSslHandshake env s is_server os).2 := by
  obtain ⟨f1, f2, f3, f4⟩ := startSslHandshake_frame env s is_server os
  unfold Good registeredHasFd at *
  rw [f1, f2, f3]
  exact h

theorem onConnect_inv (env : Env) (s : TcpSocket) (err : KumaError) (os : Os)
    (h : registeredHasFd s) (hs : s.state_ = ST_CONNECTING) :
    registeredHasFd (onConnect env s err os) := by
  have hg : Good s := ⟨h, by simp [hs]⟩
  have hg2 : Good (s.setState ST_OPEN) := ⟨h, by simp⟩
  simp only [onConnect]
  split_ifs
  · exact (startSslHandshake_good env _ _ os hg2).1
  · exact onConnectFinish_inv env _ _ (startSslHandshake_good env _ _ os hg2)
  · exact onConnectFinish_inv env _ _ hg2
  · exact onConnectFinish_inv env _ _ hg

theorem ioReadyOpen_inv (env : Env) (s : TcpSocket) (events : Nat) (h : registeredHasFd s) :
    registeredHasFd (ioReadyOpen env s events) := by
  simp only [ioReadyOpen]
  generalize hs1 : (if hasEvent events KUMA_EV_READ = true then
      onReceive env s KUMA_ERROR_NOERR else s) = s1
  have h1 : registeredHasFd s1 := by
    rw [← hs1]
    split_ifs
    · exact onReceive_inv env s _ h
    · exact h
  split_ifs
  · exact h1
  · exact onClose_inv env _ _ h1
  · exact onSend_inv env _ _ h1
  · exact h1

theorem ioReadyHandshakeDone_inv (env : Env) (s : TcpSocket) (events : Nat)
    (err : KumaError) (h : Good s) :
    registeredHasFd (ioReadyHandshakeDone env s events err).1 := by
  simp only [ioReadyHandshakeDone]
  split
  · refine (runScript_good env _ _ ?_).1
    exact h
  · split_ifs
    · exact onClose_inv env _ _ h.1
    · exact h.1

theorem ioReadyHandshake_inv (env : Env) (s : TcpSocket) (events : Nat) (os : Os)
    (h : Good s) : registeredHasFd (ioReadyHandshake env s events os).1 := by
  have h2 : Good { s with ssl_handler_ := some os.ssl_handshake } := h
  simp only [ioReadyHandshake]
  split_ifs
  · exact ioReadyHandshakeDone_inv env s events _ h
  · exact ioReadyHandshakeDone_inv env _ events _ h2
  · exact h.1
  · exact ioReadyHandshakeDone_inv env _ events _ h2

theorem ioReady_inv (env : Env) (s : TcpSocket) (events : Nat) (os : Os)
    (h : registeredHasFd s) : registeredHasFd (ioReady env s events os) := by
  simp only [ioReady, getState_eq]
  split
  · rename_i hs
    split_ifs
    · exact onConnect_inv env s _ os h hs
    · exact onConnect_inv env s _ os h hs
    · exact onReceive_inv env _ _ (onConnect_inv env s _ os h hs)
    · exact onConnect_inv env s _ os h hs
  · rename_i hs
    have hg : Good s := ⟨h, by simp [hs]⟩
    split_ifs
    · exact ioReadyHandshake_inv env s events os hg
    · exact ioReadyOpen_inv env _ _ (ioReadyHandshake_inv env s events os hg)
    · exact ioReadyOpen_inv env s events h
  · exact h

theorem call_inv (env : Env) (s : TcpSocket) (c : Call) (h : registeredHasFd s)
    (hc : c.attachesValidFd) : registeredHasFd (s.call env c) := by
  cases c with
  | bind os => exact bind_inv env s os h
  | connect cb flags timeout os => exact connect_inv env s cb flags timeout os h
  | attachFd fd flags os => exact attachFd_inv env s fd flags os h (Or.inl hc)
  | detachFd => exact detachFd_inv env s
  | send length os => exact send_inv env s length os h
  | sendv count os => exact sendv_inv env s count os h
  | receive os => exact receive_inv env s os h
  | close => exact close_inv env s h
  | ioReady events os => exact ioReady_inv env s events os h

theorem run_inv (env : Env) (calls : List Call) (s : TcpSocket) (h : registeredHasFd s)
    (hc : ∀ c ∈ calls, c.attachesValidFd) : registeredHasFd (s.run env calls) := by
  induction calls generalizing s with
  | nil => exact h
  | cons c t ih =>
    simp only [TcpSocket.run, List.foldl_cons]
    exact ih _ (call_inv env s c h (hc c (List.mem_cons_self c t)))
      (fun c2 h2 => hc c2 (List.mem_cons_of_mem c h2))

/-! ### Callbacks are invoked by `ioReady` only -/

theorem callbacks_emit (s : TcpSocket) (e : Effect) (h : e.isCallback = false) :
    (s.emit e).callbacks = s.callbacks := by
  simp [callbacks, List.filter_append, h]

theorem cleanupEffects_callbacks (env : Env) (s : TcpSocket) :
    (cleanupEffects env s).filter Effect.isCallback = [] := by
  simp only [cleanupEffects]
  split_ifs <;> simp [Effect.isCallback]

theorem cleanup_same (env : Env) (s : TcpSocket) : sameCallbacks s (cleanup env s) := by
  rw [cleanup_eq]
  simp [sameCallbacks, callbacks, List.filter_append, cleanupEffects_callbacks]

theorem sameCallbacks_refl (s : TcpSocket) : sameCallbacks s s := by
  simp [sameCallbacks]

theorem sameCallbacks_trans {s t u : TcpSocket} (h1 : sameCallbacks s t)
    (h2 : sameCallbacks t u) : sameCallbacks s u := by
  obtain ⟨a1, a2, a3, a4, a5⟩ := h1
  obtain ⟨b1, b2, b3, b4, b5⟩ := h2
  exact ⟨b1.trans a1, b2.trans a2, b3.trans a3, b4.trans a4, b5.trans a5⟩

theorem closed_same (env : Env) (s : TcpSocket) :
    sameCallbacks s ((cleanup env s).setState ST_CLOSED) := cleanup_same env s

theorem startSslHandshake_same (env : Env) (s : TcpSocket) (is_server : Bool) (os : Os) :
    sameCallbacks s (startSslHandshake env s is_server os).2 := by
  obtain ⟨fd, st, reg, fl, ssl, c1, c2, c3, c4, d, tr⟩ := s
  simp only [startSslHandshake, emit]
  split_ifs <;> simp [sameCallbacks, callbacks, List.filter_append, Effect.isCallback]

theorem bind_same (env : Env) (s : TcpSocket) (os : Os) : sameCallbacks s (bind env s os).2 := by
  have hc := cleanup_same env s
  simp only [bind]
  split_ifs <;> first | exact sameCallbacks_refl s | exact hc

theorem registerNetwork_same (s : TcpSocket) : sameCallbacks s (registerNetwork s) := by
  simp [sameCallbacks, callbacks, List.filter_append, Effect.isCallback, registerNetwork, emit]

theorem connect_same (env : Env) (s : TcpSocket) (cb : Option Callback) (flags timeout : Nat)
    (os : Os) : sameCallbacks s (connect env s cb flags timeout os).2 := by
  simp only [connect, connect_i]
  split_ifs
  all_goals first
    | exact sameCallbacks_refl s
    | exact cleanup_same env _
    | exact registerNetwork_same (TcpSocket.setState _ ST_CONNECTING)

theorem attachFd_same (env : Env) (s : TcpSocket) (fd : Int) (flags : Nat) (os : Os) :
    sameCallbacks s (attachFd env s fd flags os).2 := by
  simp only [attachFd]
  split_ifs
  · exact sameCallbacks_refl s
  · exact sameCallbacks_refl s
  · exact startSslHandshake_same env ({ s with fd_ := fd, flags_ := flags }.setState ST_OPEN)
      true os
  · exact sameCallbacks_trans
      (startSslHandshake_same env ({ s with fd_ := fd, flags_ := flags }.setState ST_OPEN)
        true os) (registerNetwork_same _)
  · exact registerNetwork_same ({ s with fd_ := fd, flags_ := flags }.setState ST_OPEN)

theorem detachFd_same (env : Env) (s : TcpSocket) : sameCallbacks s (detachFd env s).2.2 := by
  simp only [detachFd]
  split_ifs
  · exact sameCallbacks_trans
      (by simp [sameCallbacks, callbacks, List.filter_append, Effect.isCallback, emit])
      (cleanup_same env _)
  · exact cleanup_same env _

theorem close_same (env : Env) (s : TcpSocket) : sameCallbacks s (close env s).2 :=
  cleanup_same env s

theorem send_same (env : Env) (s : TcpSocket) (length : Nat) (os : Os) :
    sameCallbacks s (send env s length os).2 := by
  simp only [send]
  split_ifs
  all_goals first
    | exact sameCallbacks_refl s
    | exact cleanup_same env s
    | simp [sameCallbacks, callbacks, List.filter_append, Effect.isCallback, emit]

theorem sendv_same (env : Env) (s : TcpSocket) (count : Nat) (os : Os) :
    sameCallbacks s (sendv env s count os).2 := by
  simp only [sendv]
  split_ifs
  all_goals first
    | exact sameCallbacks_refl s
    | exact cleanup_same env s
    | simp [sameCallbacks, callbacks, List.filter_append, Effect.isCallback, emit]

theorem receive_same (env : Env) (s : TcpSocket) (os : Os) :
    sameCallbacks s (receive env s os).2 := by
  simp only [receive]
  split_ifs
  all_goals first
    | exact sameCallbacks_refl s
    | exact cleanup_same env s

theorem reCall_same (env : Env) (s : TcpSocket) (c : ReCall) :
    sameCallbacks s (reCall env s c) := by
  cases c with
  | bind os => exact bind_same env s os
  | connect flags timeout os => exact connect_same env s none flags timeout os
  | attachFd fd flags os => exact attachFd_same env s fd flags os
  | detachFd => exact detachFd_same env s
  | send length os => exact send_same env s length os
  | sendv count os => exact sendv_same env s count os
  | receive os => exact receive_same env s os
  | close => exact close_same env s

theorem foldl_reCall_same (env : Env) (l : List ReCall) (s : TcpSocket) :
    sameCallbacks s (l.foldl (reCall env) s) := by
  induction l generalizing s with
  | nil => exact sameCallbacks_refl s
  | cons c t ih => exact sameCallbacks_trans (reCall_same env s c) (ih _)

theorem runScript_callbacks (env : Env) (s : TcpSocket) (sc : Script) :
    (runScript env s sc).callbacks = s.callbacks ∧
    (runScript env s sc).cb_error_ = s.cb_error_ := by
  obtain ⟨-, -, a3, -, a5⟩ := foldl_reCall_same env sc.calls s
  simp only [runScript]
  split_ifs
  · obtain ⟨-, -, b3, -, b5⟩ := cleanup_same env
      { sc.calls.foldl (reCall env) s with destroyed := true }
    exact ⟨b5.trans a5, b3.trans a3⟩
  · exact ⟨a5, a3⟩

theorem closed_of_rank {a b : State} (h : a = ST_CLOSED) (hr : a.rank ≤ b.rank) :
    b = ST_CLOSED := by
  subst h
  cases b <;> simp_all [State.rank]

theorem errorCbs_eq (s : TcpSocket) :
    s.trace.filter Effect.isErrorCb = s.callbacks.filter Effect.isErrorCb := by
  simp only [callbacks, List.filter_filter]
  congr 1
  funext e
  cases e <;> rfl

theorem cleanupEffects_timers (env : Env) (s : TcpSocket) :
    (cleanupEffects env s).filter Effect.isTimer = [] := by
  simp only [cleanupEffects]
  split_ifs <;> simp [Effect.isTimer]

theorem ioResult_hard (os : Os) (h : os.hardError) : ioResult os < 0 := by
  unfold ioResult
  rcases h with h | ⟨h1, h2, h3⟩
  · simp [h]
  · have h0 : os.io_ret ≠ 0 := by omega
    have h4 : ¬ (os.last_error = EAGAIN ∨ EWOULDBLOCK = os.last_error) := by
      rintro (h | h)
      · exact h2 h
      · exact h3 h.symm
    simp [h0, h1, h4]

theorem isReady_plain (env : Env) (s : TcpSocket) (h_open : s.state_ = ST_OPEN)
    (h_plain : s.plain) : isReady env s = true := by
  simp [isReady, h_open, h_plain.1]

/-- `onClose` leaves the socket CLOSED and invokes the error callback once if there is
one, and no other callback. -/
theorem onClose_effect (env : Env) (s : TcpSocket) (err : KumaError) :
    (onClose env s err).state_ = ST_CLOSED ∧
    (onClose env s err).callbacks =
      s.callbacks ++ (if s.cb_error_.isSome then [Effect.cb_error err] else []) := by
  obtain ⟨-, -, c3, -, c5⟩ := closed_same env s
  simp only [onClose]
  split
  · rename_i cb hcb
    have hr := runScript_rank env
      (((cleanup env s).setState ST_CLOSED).emit (Effect.cb_error err)) (cb err)
    obtain ⟨k1, -⟩ := runScript_callbacks env
      (((cleanup env s).setState ST_CLOSED).emit (Effect.cb_error err)) (cb err)
    refine ⟨closed_of_rank (by simp) hr, ?_⟩
    rw [k1]
    have hsome : s.cb_error_.isSome = true := by
      rw [← c3, hcb]; rfl
    simp only [hsome, if_true]
    rw [← c5]
    simp [callbacks, List.filter_append, Effect.isCallback]
  · rename_i hcb
    have hnone : s.cb_error_.isSome = false := by
      rw [← c3, hcb]; rfl
    refine ⟨by simp, ?_⟩
    simp only [hnone, Bool.false_eq_true, if_false, List.append_nil]
    exact c5

end TcpSocket

/-- C5, as the code has it: whatever the operation and the results of the OS calls,
the state stays the same or moves along one of the edges IDLE→CONNECTING,
CONNECTING→OPEN, IDLE→OPEN, OPEN→CLOSED, CONNECTING→CLOSED or IDLE→CLOSED; in
particular a CLOSED socket stays CLOSED. -/
theorem C5_state_moves_forward (env : Env) (s : TcpSocket) (c : Call) :
    codeStep s.state_ (s.call env c).state_ ∧
    (codeStep ST_CLOSED (s.call env c).state_ ↔ (s.call env c).state_ = ST_CLOSED) := by
  have h := TcpSocket.call_rank env s c
  revert h
  generalize (s.call env c).state_ = b
  generalize s.state_ = a
  intro h
  constructor
  · cases a <;> cases b <;> simp [codeStep, specStep, State.rank] at h ⊢
  · cases b <;> simp [codeStep, specStep]

/-- C5, counterexample: `close` on a freshly constructed socket moves it directly from
IDLE to CLOSED, which is none of the moves of the specification; so do
`detachFd` and a `connect` that the OS refuses. -/
theorem C5_counterexample_idle_to_closed :
    freshSocket.state_ = ST_IDLE ∧
    (freshSocket.call envPlain Call.close).state_ = ST_CLOSED ∧
    ¬ specStep freshSocket.state_ (freshSocket.call envPlain Call.close).state_ ∧
    (freshSocket.call envPlain Call.detachFd).state_ = ST_CLOSED ∧
    (freshSocket.call envPlain
      (Call.connect none 0 0 { osOk with connect_ret := -1, last_error := 111 })).state_
      = ST_CLOSED := by
  refine ⟨rfl, by decide, by decide, by decide, by decide⟩

/-- C6, as the code has it: in every state reached from a freshly constructed socket by
a sequence of bind, connect, attachFd, detachFd, send, receive, close and
ioReady in which `attachFd` is never given INVALID_FD, a socket registered with
the loop holds a descriptor. -/
theorem C6_registered_has_descriptor (env : Env) (cb_read cb_write cb_error : Option Callback)
    (calls : List Call) (h_fd : ∀ c ∈ calls, c.attachesValidFd)
    (h_reg : ((TcpSocket.init cb_read cb_write cb_error).run env calls).registered_ = true) :
    ((TcpSocket.init cb_read cb_write cb_error).run env calls).fd_ ≠ INVALID_FD :=
  TcpSocket.run_inv env calls (TcpSocket.init cb_read cb_write cb_error)
    (fun h => Bool.noConfusion h) h_fd h_reg

/-- C6, witness: a socket that was given descriptor 7 with `attachFd` and then met a
read event is registered and holds descriptor 7. -/
theorem C6_registered_has_descriptor_witness :
    (freshSocket.run envPlain [Call.attachFd 7 0 osOk, Call.ioReady 1 osOk]).registered_ = true ∧
    (freshSocket.run envPlain [Call.attachFd 7 0 osOk, Call.ioReady 1 osOk]).fd_ ≠ INVALID_FD :=
  ⟨by decide,
   C6_registered_has_descriptor envPlain (some cbIdle) (some cbIdle) (some cbIdle)
    [Call.attachFd 7 0 osOk, Call.ioReady 1 osOk]
    (by
      intro c hc
      simp only [List.mem_cons, List.mem_singleton, List.not_mem_nil, or_false] at hc
      rcases hc with h | h <;> subst h <;> decide)
    (by decide)⟩

/-- C6, counterexample: `attachFd(INVALID_FD)` on a freshly constructed socket registers
the socket with the loop although it holds no descriptor. -/
theorem C6_counterexample_attach_invalid_fd :
    (freshSocket.run envPlain [Call.attachFd INVALID_FD 0 osOk]).registered_ = true ∧
    (freshSocket.run envPlain [Call.attachFd INVALID_FD 0 osOk]).fd_ = INVALID_FD ∧
    (freshSocket.run envPlain [Call.attachFd INVALID_FD 0 osOk]).state_ = ST_OPEN := by
  refine ⟨by decide, by decide, by decide⟩

/-- C7, as the code has it: a `bind` on an IDLE socket that returns an error leaves the
socket IDLE; the descriptor is INVALID_FD when the address does not resolve or
no socket could be created, and is the descriptor just created when the OS
bind fails: the call closes nothing but a descriptor held before. -/
theorem C7_bind_failure (env : Env) (s : TcpSocket) (os : Os)
    (h_idle : s.state_ = ST_IDLE)
    (h_err : (s.bind env os).1 ≠ KUMA_ERROR_NOERR) :
    (s.bind env os).2.state_ = ST_IDLE ∧
    (s.bind env os).2.fd_ = (if os.addr_ok = true then os.sock else INVALID_FD) ∧
    (s.bind env os).2.trace =
      s.trace ++ (if s.fd_ ≠ INVALID_FD then cleanupEffects env s else []) := by
  refine ⟨by rw [TcpSocket.bind_state]; exact h_idle, ?_, ?_⟩
  · simp only [TcpSocket.bind, TcpSocket.getState_eq, h_idle]
    split_ifs <;> simp_all
  · simp only [TcpSocket.bind, TcpSocket.getState_eq, h_idle]
    split_ifs <;> simp_all

/-- C7, witness: the OS bind fails on a fresh socket. -/
theorem C7_bind_failure_witness :
    (freshSocket.bind envPlain osBindFails).2.state_ = ST_IDLE ∧
    (freshSocket.bind envPlain osBindFails).2.fd_ =
      (if osBindFails.addr_ok = true then osBindFails.sock else INVALID_FD) ∧
    (freshSocket.bind envPlain osBindFails).2.trace =
      freshSocket.trace ++
        (if freshSocket.fd_ ≠ INVALID_FD then cleanupEffects envPlain freshSocket else []) :=
  C7_bind_failure envPlain freshSocket osBindFails rfl (by decide)

/-- C7, counterexample: on a fresh socket, the address resolves and `::socket` gives
descriptor 5, then `::bind` fails: `bind` returns FAILED and the socket, still
IDLE, holds descriptor 5, which has not been closed. -/
theorem C7_counterexample_descriptor_kept :
    (freshSocket.bind envPlain osBindFails).1 = KUMA_ERROR_FAILED ∧
    (freshSocket.bind envPlain osBindFails).2.state_ = ST_IDLE ∧
    (freshSocket.bind envPlain osBindFails).2.fd_ = 5 ∧
    (freshSocket.bind envPlain osBindFails).2.fd_ ≠ INVALID_FD ∧
    (freshSocket.bind envPlain osBindFails).2.trace = [] := by
  refine ⟨by decide, by decide, by decide, by decide, by decide⟩

/-- C8, as the code has it: a `connect` from IDLE that reaches the OS connect and is
refused there (an error other than in-progress) returns FAILED and leaves the
socket CLOSED, without descriptor and not registered; the descriptor that was
used is released: shut down for reading, then unregistered and closed by the
loop if the socket was registered, and closed directly otherwise; the callback
and the flags passed to the call are stored in the socket; the failure is
reported by the return value only: no callback is invoked. The socket after
the call is given field by field. -/
theorem C8_connect_failure (env : Env) (s : TcpSocket) (cb : Option Callback)
    (flags timeout : Nat) (os : Os)
    (h_idle : s.state_ = ST_IDLE)
    (h_ssl : env.has_openssl = true ∨ flags &&& FLAG_ENABLE_SSL = 0)
    (h_addr : os.addr_ok = true)
    (h_sock : s.fd_ ≠ INVALID_FD ∨ os.sock ≠ INVALID_FD)
    (h_fail : os.connect_ret ≠ 0 ∧ ¬ (os.connect_ret < 0 ∧ EINPROGRESS = os.last_error)) :
    (s.connect env cb flags timeout os).1 = KUMA_ERROR_FAILED ∧
    (s.connect env cb flags timeout os).2.state_ = ST_CLOSED ∧
    (s.connect env cb flags timeout os).2.fd_ = INVALID_FD ∧
    (s.connect env cb flags timeout os).2.registered_ = false ∧
    (s.connect env cb flags timeout os).2.callbacks = s.callbacks ∧
    s.connectFd os ≠ INVALID_FD ∧
    (s.connect env cb flags timeout os).2.cb_connect_ = cb ∧
    (s.connect env cb flags timeout os).2.trace =
      s.trace ++
        (if env.has_openssl ∧ s.ssl_handler_.isSome then [Effect.ssl_close] else []) ++
        [Effect.shutdown (s.connectFd os),
         if s.registered_ then Effect.unregisterFd (s.connectFd os) true
         else Effect.closeFd (s.connectFd os)] ∧
    (s.connect env cb flags timeout os).2 =
      { s with
        fd_ := INVALID_FD
        state_ := ST_CLOSED
        registered_ := false
        flags_ := flags
        ssl_handler_ := if env.has_openssl then none else s.ssl_handler_
        cb_connect_ := cb
        trace := s.trace ++
          (if env.has_openssl ∧ s.ssl_handler_.isSome then [Effect.ssl_close] else []) ++
          [Effect.shutdown (s.connectFd os),
           if s.registered_ then Effect.unregisterFd (s.connectFd os) true
           else Effect.closeFd (s.connectFd os)] } := by
  have hsame := (TcpSocket.connect_same env s cb flags timeout os).2.2.2.2
  have hcond : ¬ (os.connect_ret = 0 ∨ (os.connect_ret < 0 ∧ EINPROGRESS = os.last_error)) := by
    rintro (h | h)
    · exact h_fail.1 h
    · exact h_fail.2 h
  have hssl : ¬ (env.has_openssl = false ∧ (flags &&& FLAG_ENABLE_SSL != 0) = true) := by
    rintro ⟨h1, h2⟩
    rcases h_ssl with h | h
    · simp [h] at h1
    · simp [h] at h2
  have heq : s.connect env cb flags timeout os =
      (KUMA_ERROR_FAILED,
        (TcpSocket.cleanup env
          (if s.fd_ = INVALID_FD then
            { s with cb_connect_ := cb, flags_ := flags, fd_ := os.sock }
           else { s with cb_connect_ := cb, flags_ := flags })).setState ST_CLOSED) := by
    simp only [TcpSocket.connect, TcpSocket.connect_i, TcpSocket.getState_eq, h_idle,
      ne_eq, not_true_eq_false, if_false, h_addr, Bool.not_true, Bool.false_eq_true,
      hcond, TcpSocket.SslEnabled, TcpSocket.invalid_fd_eq, Bool.not_eq_true', hssl]
    by_cases hfd : s.fd_ = INVALID_FD
    · have h2 : ¬ os.sock = INVALID_FD := by
        rcases h_sock with h | h
        · exact absurd hfd h
        · exact h
      simp [hfd, h2]
    · simp [hfd]
  have hd : s.connectFd os ≠ INVALID_FD := by
    unfold TcpSocket.connectFd
    by_cases hfd : s.fd_ = INVALID_FD
    · rcases h_sock with h | h
      · exact absurd hfd h
      · simpa [hfd] using h
    · simp [hfd]
  have hfull : (s.connect env cb flags timeout os).2 =
      { s with
        fd_ := INVALID_FD
        state_ := ST_CLOSED
        registered_ := false
        flags_ := flags
        ssl_handler_ := if env.has_openssl then none else s.ssl_handler_
        cb_connect_ := cb
        trace := s.trace ++
          (if env.has_openssl ∧ s.ssl_handler_.isSome then [Effect.ssl_close] else []) ++
          [Effect.shutdown (s.connectFd os),
           if s.registered_ then Effect.unregisterFd (s.connectFd os) true
           else Effect.closeFd (s.connectFd os)] } := by
    rw [heq]
    simp only [TcpSocket.cleanup_eq, TcpSocket.setState]
    obtain ⟨fd, st, reg, fl, ssl, c1, c2, c3, c4, d, tr⟩ := s
    simp only [TcpSocket.connectFd] at hd ⊢
    by_cases hfd : fd = INVALID_FD
    · have h2 : ¬ os.sock = INVALID_FD := by simpa [hfd] using hd
      simp [hfd, h2, cleanupEffects]
    · simp [hfd, cleanupEffects]
  refine ⟨by rw [heq], by rw [hfull], by rw [hfull], by rw [hfull], hsame, hd,
    by rw [hfull], by rw [hfull], hfull⟩

/-- C8, witness: the peer refuses the connection of a fresh socket. -/
theorem C8_connect_failure_witness :
    (freshSocket.connect envPlain (some cbIdle) 0 0 osConnectRefused).1 = KUMA_ERROR_FAILED ∧
    (freshSocket.connect envPlain (some cbIdle) 0 0 osConnectRefused).2.state_ = ST_CLOSED ∧
    (freshSocket.connect envPlain (some cbIdle) 0 0 osConnectRefused).2.fd_ = INVALID_FD ∧
    (freshSocket.connect envPlain (some cbIdle) 0 0 osConnectRefused).2.registered_ = false ∧
    (freshSocket.connect envPlain (some cbIdle) 0 0 osConnectRefused).2.callbacks
      = freshSocket.callbacks ∧
    (freshSocket.connect envPlain (some cbIdle) 0 0 osConnectRefused).2.cb_connect_
      = some cbIdle ∧
    (freshSocket.connect envPlain (some cbIdle) 0 0 osConnectRefused).2.trace
      = [Effect.shutdown 5, Effect.closeFd 5] :=
  have h := C8_connect_failure envPlain freshSocket (some cbIdle) 0 0 osConnectRefused rfl
    (Or.inr (by decide)) rfl (Or.inr (by decide)) (by decide)
  ⟨h.1, h.2.1, h.2.2.1, h.2.2.2.1, h.2.2.2.2.1, h.2.2.2.2.2.2.1,
    h.2.2.2.2.2.2.2.1.trans (by decide)⟩

/-- C8, counterexample: the peer refuses the connection of a fresh socket to which a
connect callback was passed: the socket is CLOSED, its descriptor shut down and
closed, and the callback has not been invoked, with FAILED or otherwise. -/
theorem C8_counterexample_callback_not_invoked :
    (freshSocket.connect envPlain (some cbIdle) 0 0 osConnectRefused).2.state_ = ST_CLOSED ∧
    (freshSocket.connect envPlain (some cbIdle) 0 0 osConnectRefused).2.trace =
      [Effect.shutdown 5, Effect.closeFd 5] ∧
    Effect.cb_connect KUMA_ERROR_FAILED ∉
      (freshSocket.connect envPlain (some cbIdle) 0 0 osConnectRefused).2.trace := by
  refine ⟨by decide, by decide, by decide⟩

/-- C9, as the code has it: `connect` does not use its timeout: the result, the socket
and the effects are the same for any two timeout values, and the call makes no
access to the timers of the loop. -/
theorem C9_connect_ignores_timeout (env : Env) (s : TcpSocket) (cb : Option Callback)
    (flags t1 t2 : Nat) (os : Os) :
    s.connect env cb flags t1 os = s.connect env cb flags t2 os ∧
    (s.connect env cb flags t1 os).2.trace.filter Effect.isTimer =
      s.trace.filter Effect.isTimer := by
  refine ⟨rfl, ?_⟩
  simp only [TcpSocket.connect, TcpSocket.connect_i, TcpSocket.registerNetwork]
  split_ifs
  all_goals first
    | rfl
    | simp [TcpSocket.emit, TcpSocket.setState, List.filter_append, Effect.isTimer,
        TcpSocket.cleanupEffects_timers]

/-- C9, counterexample: a `connect` with timeout 5000 that leaves the socket CONNECTING
only registers the descriptor with the loop: no timer is armed, and the result
is the one of the same call with timeout 0. -/
theorem C9_counterexample_no_timer :
    (freshSocket.connect envPlain (some cbIdle) 0 5000 osConnectInProgress).2.state_
      = ST_CONNECTING ∧
    (freshSocket.connect envPlain (some cbIdle) 0 5000 osConnectInProgress).2.trace
      = [Effect.registerFd 5 7] ∧
    freshSocket.connect envPlain (some cbIdle) 0 5000 osConnectInProgress =
      freshSocket.connect envPlain (some cbIdle) 0 0 osConnectInProgress := by
  refine ⟨by decide, by decide, rfl⟩

/-- C10, as the code has it: on an OPEN socket without TLS that holds a descriptor, a
`send` or `receive` that meets a hard error (the peer closed, or an error other
than EAGAIN/EWOULDBLOCK) returns a negative value and leaves the socket CLOSED
without invoking any callback; an error event delivered to `ioReady`, the
socket being still OPEN and alive after the read step, leaves the socket
CLOSED and invokes the error callback exactly once, with POLLERR, when one is
installed, and never otherwise. -/
theorem C10_hard_errors (env : Env) (s : TcpSocket) (length count events : Nat) (os : Os)
    (h_open : s.state_ = ST_OPEN) (h_fd : s.fd_ ≠ INVALID_FD) (h_plain : s.plain)
    (h_hard : os.hardError) (h_count : 0 < count)
    (h_err : TcpSocket.hasEvent events KUMA_EV_ERROR = true)
    (h_read : (s.afterRead env events).state_ = ST_OPEN ∧
      (s.afterRead env events).destroyed = false) :
    ((s.send env length os).1 < 0 ∧ (s.send env length os).2.state_ = ST_CLOSED ∧
      (s.send env length os).2.callbacks = s.callbacks) ∧
    ((s.sendv env count os).1 < 0 ∧ (s.sendv env count os).2.state_ = ST_CLOSED ∧
      (s.sendv env count os).2.callbacks = s.callbacks) ∧
    ((s.receive env os).1 < 0 ∧ (s.receive env os).2.state_ = ST_CLOSED ∧
      (s.receive env os).2.callbacks = s.callbacks) ∧
    ((s.ioReady env events os).state_ = ST_CLOSED ∧
      (s.ioReady env events os).trace.filter Effect.isErrorCb =
        s.trace.filter Effect.isErrorCb ++
          (if s.cb_error_.isSome then [Effect.cb_error KUMA_ERROR_POLLERR] else [])) := by
  have hready := TcpSocket.isReady_plain env s h_open h_plain
  have hres := TcpSocket.ioResult_hard os h_hard
  have hfd : ¬ INVALID_FD = s.fd_ := fun h => h_fd h.symm
  have hnssl : ¬ (env.has_openssl = true ∧ s.SslEnabled = true) := by
    rintro ⟨-, h⟩
    rw [h_plain.1] at h
    exact Bool.noConfusion h
  have hc : 0 ≠ count := by omega
  refine ⟨⟨?_, ?_, (TcpSocket.send_same env s length os).2.2.2.2⟩,
    ⟨?_, ?_, (TcpSocket.sendv_same env s count os).2.2.2.2⟩,
    ⟨?_, ?_, (TcpSocket.receive_same env s os).2.2.2.2⟩, ?_⟩
  · simp [TcpSocket.send, hready, hfd, hnssl, hres]
  · simp [TcpSocket.send, hready, hfd, hnssl, hres]
  · simp [TcpSocket.sendv, hready, hfd, hnssl, hres, hc]
  · simp [TcpSocket.sendv, hready, hfd, hnssl, hres, hc]
  · simp [TcpSocket.receive, hready, hfd, hnssl, hres]
  · simp [TcpSocket.receive, hready, hfd, hnssl, hres]
  · have hio : s.ioReady env events os =
        TcpSocket.onClose env (s.afterRead env events) KUMA_ERROR_POLLERR := by
      have hns : ¬ (env.has_openssl = true ∧
          s.ssl_handler_ = some SslState.SSL_HANDSHAKE) := by
        rintro ⟨-, h⟩
        rw [h_plain.2] at h
        exact Option.noConfusion h
      simp only [TcpSocket.ioReady, TcpSocket.getState_eq, h_open, hns, if_false,
        TcpSocket.ioReadyOpen]
      simp only [TcpSocket.afterRead] at h_read ⊢
      simp [h_read.1, h_read.2, h_err]
    obtain ⟨e1, e2⟩ := TcpSocket.onClose_effect env (s.afterRead env events) KUMA_ERROR_POLLERR
    have hread : (s.afterRead env events).callbacks =
          s.callbacks ++
            (if TcpSocket.hasEvent events KUMA_EV_READ = true ∧ s.cb_read_.isSome = true
             then [Effect.cb_read KUMA_ERROR_NOERR] else []) ∧
        (s.afterRead env events).cb_error_ = s.cb_error_ := by
      simp only [TcpSocket.afterRead, TcpSocket.onReceive, hready, if_true]
      by_cases hr : TcpSocket.hasEvent events KUMA_EV_READ = true
      · simp only [hr, if_true, true_and]
        cases hcb : s.cb_read_ with
        | none => simp
        | some cb =>
          obtain ⟨k1, k2⟩ := TcpSocket.runScript_callbacks env
            (s.emit (Effect.cb_read KUMA_ERROR_NOERR)) (cb KUMA_ERROR_NOERR)
          simp only [k1, k2]
          simp [TcpSocket.callbacks, List.filter_append, Effect.isCallback]
      · simp [hr]
    rw [hio]
    refine ⟨e1, ?_⟩
    rw [TcpSocket.errorCbs_eq, TcpSocket.errorCbs_eq s, e2, hread.1, hread.2]
    simp only [List.filter_append]
    split_ifs <;> simp [Effect.isErrorCb]

/-- C10, witness: an open socket on descriptor 7 meets a connection reset in `send`,
`sendv` and `receive`, and an event with the READ and ERROR bits in `ioReady`. -/
theorem C10_hard_errors_witness :
    ((openSocket.send envPlain 10 osReset).1 < 0 ∧
      (openSocket.send envPlain 10 osReset).2.state_ = ST_CLOSED ∧
      (openSocket.send envPlain 10 osReset).2.callbacks = openSocket.callbacks) ∧
    ((openSocket.sendv envPlain 1 osReset).1 < 0 ∧
      (openSocket.sendv envPlain 1 osReset).2.state_ = ST_CLOSED ∧
      (openSocket.sendv envPlain 1 osReset).2.callbacks = openSocket.callbacks) ∧
    ((openSocket.receive envPlain osReset).1 < 0 ∧
      (openSocket.receive envPlain osReset).2.state_ = ST_CLOSED ∧
      (openSocket.receive envPlain osReset).2.callbacks = openSocket.callbacks) ∧
    ((openSocket.ioReady envPlain 5 osReset).state_ = ST_CLOSED ∧
      (openSocket.ioReady envPlain 5 osReset).trace.filter Effect.isErrorCb =
        openSocket.trace.filter Effect.isErrorCb ++
          (if openSocket.cb_error_.isSome then [Effect.cb_error KUMA_ERROR_POLLERR] else [])) :=
  C10_hard_errors envPlain openSocket 10 1 5 osReset (by decide) (by decide)
    (by decide) (by decide) (by decide) (by decide) (by decide)

/-- C10, counterexample: an open socket with an error callback installed meets a
connection reset in `send`: the call returns -1 and the socket is CLOSED, but
the error callback has not been invoked; the same holds for `receive`. -/
theorem C10_counterexample_send_error_no_callback :
    openSocket.state_ = ST_OPEN ∧ openSocket.cb_error_.isSome = true ∧
    (openSocket.send envPlain 10 osReset).1 = -1 ∧
    (openSocket.send envPlain 10 osReset).2.state_ = ST_CLOSED ∧
    (openSocket.send envPlain 10 osReset).2.trace =
      [Effect.registerFd 7 7, Effect.shutdown 7, Effect.unregisterFd 7 true] ∧
    (openSocket.send envPlain 10 osReset).2.trace.filter Effect.isErrorCb = [] ∧
    (openSocket.receive envPlain osReset).1 = -1 ∧
    (openSocket.receive envPlain osReset).2.state_ = ST_CLOSED ∧
    (openSocket.receive envPlain osReset).2.trace.filter Effect.isErrorCb = [] := by
  refine ⟨by decide, by decide, by decide, by decide, by decide, by decide, by decide,
    by decide, by decide⟩

end kuma

/-! ## Theorems on sending, receiving, detaching and closing -/

namespace kuma

open KumaError State

namespace TcpSocket

theorem ioResult_pos (os : Os) (h : 0 < os.io_ret) : ioResult os = os.io_ret := by
  unfold ioResult
  have h0 : os.io_ret ≠ 0 := by omega
  have h1 : ¬ os.io_ret < 0 := by omega
  simp [h0, h1]

theorem ioResult_wouldBlock (os : Os) (h : os.wouldBlock) : ioResult os = 0 := by
  unfold ioResult
  obtain ⟨h1, h2⟩ := h
  have h0 : os.io_ret ≠ 0 := by omega
  have h3 : os.last_error = EAGAIN ∨ EWOULDBLOCK = os.last_error := by
    rcases h2 with h | h
    · exact Or.inl h
    · exact Or.inr h.symm
  simp [h0, h1, h3]

/-- The path of `send`, `sendv` and `receive` that reaches the OS call: the socket is
ready, holds a descriptor, and TLS is not enabled. -/
theorem plain_path (env : Env) (s : TcpSocket) (h_ready : isReady env s = true)
    (h_tls : s.SslEnabled = false) (h_fd : s.fd_ ≠ INVALID_FD) :
    (!isReady env s) = false ∧ ¬ INVALID_FD = s.fd_ ∧
      ¬ (env.has_openssl = true ∧ s.SslEnabled = true) := by
  refine ⟨by simp [h_ready], fun h => h_fd h.symm, ?_⟩
  rintro ⟨-, h⟩
  rw [h_tls] at h
  exact Bool.noConfusion h

/-- The single-buffer `send` on a partial write or a would-block: the bytes written are
returned and the descriptor is armed for write on a loop of poll type. -/
theorem send_short (env : Env) (s : TcpSocket) (length : Nat) (os : Os)
    (h_ready : isReady env s = true) (h_tls : s.SslEnabled = false)
    (h_fd : s.fd_ ≠ INVALID_FD)
    (h_short : (0 < os.io_ret ∧ os.io_ret < length) ∨ (os.wouldBlock ∧ 0 < length)) :
    s.send env length os =
      (if 0 < os.io_ret then os.io_ret else 0, s.armedForWrite env) := by
  obtain ⟨p1, p2, p3⟩ := plain_path env s h_ready h_tls h_fd
  rcases h_short with ⟨h1, h2⟩ | ⟨h1, h2⟩
  · have hr := ioResult_pos os h1
    have h3 : ¬ os.io_ret < 0 := by omega
    simp only [send, p1, p2, p3, hr, h1, h2, h3, if_true, if_false, armedForWrite,
      Bool.false_eq_true]
    split_ifs <;> rfl
  · have hr := ioResult_wouldBlock os h1
    have h3 : ¬ 0 < os.io_ret := by have := h1.1; omega
    have h4 : (0 : Int) < (length : Int) := by exact_mod_cast h2
    simp only [send, p1, p2, p3, hr, h3, h4, if_true, if_false, armedForWrite,
      Bool.false_eq_true, lt_self_iff_false]
    split_ifs <;> rfl

/-- The vectored `send` on a would-block: 0 is returned and the descriptor is armed for
write on a loop of poll type. -/
theorem sendv_wouldBlock (env : Env) (s : TcpSocket) (count : Nat) (os : Os)
    (h_ready : isReady env s = true) (h_tls : s.SslEnabled = false)
    (h_fd : s.fd_ ≠ INVALID_FD) (h_count : 0 < count) (h_block : os.wouldBlock) :
    s.sendv env count os = (0, s.armedForWrite env) := by
  obtain ⟨p1, p2, p3⟩ := plain_path env s h_ready h_tls h_fd
  have hr := ioResult_wouldBlock os h_block
  have hc : ¬ 0 = count := by omega
  simp only [sendv, p1, p2, p3, hr, hc, if_false, armedForWrite, Bool.false_eq_true,
    lt_self_iff_false, gt_iff_lt, if_true]
  split_ifs <;> rfl

/-- The vectored `send` when the OS takes some bytes, be it all or a part of what was
asked: the bytes written are returned and nothing else is done; the descriptor
is not armed for write. -/
theorem sendv_some (env : Env) (s : TcpSocket) (count : Nat) (os : Os)
    (h_ready : isReady env s = true) (h_tls : s.SslEnabled = false)
    (h_fd : s.fd_ ≠ INVALID_FD) (h_count : 0 < count) (h_some : 0 < os.io_ret) :
    s.sendv env count os = (os.io_ret, s) := by
  obtain ⟨p1, p2, p3⟩ := plain_path env s h_ready h_tls h_fd
  have hr := ioResult_pos os h_some
  have hc : ¬ 0 = count := by omega
  have h3 : ¬ os.io_ret < 0 := by omega
  have h4 : ¬ 0 = os.io_ret := by omega
  simp only [sendv, p1, p2, p3, hr, hc, h3, h4, h_some, if_false, Bool.false_eq_true,
    gt_iff_lt, if_true]

end TcpSocket

/-- C11, the code at a partial vectored write: on a ready socket without TLS, on a
loop of poll type, `send(iovs, 2)` of which the OS takes 40 bytes returns 40
and leaves the socket OPEN, but makes no call of `updateFd`: write readiness is
not enabled. The single-buffer `send` of 100 bytes of which the OS takes 40
does call `updateFd` with the network mask. -/
theorem C11_partial_writev_not_armed :
    openSocket.state_ = ST_OPEN ∧ openSocket.trace = [Effect.registerFd 7 7] ∧
    (openSocket.sendv envPoll 2 osPartial).1 = 40 ∧
    (openSocket.sendv envPoll 2 osPartial).2.state_ = ST_OPEN ∧
    (openSocket.sendv envPoll 2 osPartial).2.trace = [Effect.registerFd 7 7] ∧
    (openSocket.send envPoll 100 osPartial).1 = 40 ∧
    (openSocket.send envPoll 100 osPartial).2.state_ = ST_OPEN ∧
    (openSocket.send envPoll 100 osPartial).2.trace =
      [Effect.registerFd 7 7, Effect.updateFd 7 7] ∧
    (openSocket.sendv envPoll 2 osWouldBlock).1 = 0 ∧
    (openSocket.sendv envPoll 2 osWouldBlock).2.trace =
      [Effect.registerFd 7 7, Effect.updateFd 7 7] := by
  refine ⟨by decide, by decide, by decide, by decide, by decide, by decide, by decide,
    by decide, by decide, by decide⟩

/-- C12: `receive` on a socket that is not ready returns 0 and leaves the socket as it
was; on a ready socket without TLS that holds a descriptor, a `recv` of `n > 0`
bytes returns `n` and the socket stays OPEN; a `recv` of 0 (the peer closed)
returns -1 and leaves the socket CLOSED, its descriptor released by `cleanup`;
a `recv` that would block returns 0 and the socket stays OPEN. -/
theorem C12_receive (env : Env) (s : TcpSocket) (os : Os) :
    (TcpSocket.isReady env s = false → s.receive env os = (0, s)) ∧
    (TcpSocket.isReady env s = true → s.SslEnabled = false → s.fd_ ≠ INVALID_FD →
      (0 < os.io_ret →
        s.receive env os = (os.io_ret, s) ∧ (s.receive env os).2.state_ = ST_OPEN) ∧
      (os.io_ret = 0 →
        (s.receive env os).1 = -1 ∧ (s.receive env os).2.state_ = ST_CLOSED ∧
        (s.receive env os).2.fd_ = INVALID_FD ∧
        (s.receive env os).2.registered_ = false ∧
        (s.receive env os).2.trace = s.trace ++ cleanupEffects env s ∧
        Effect.shutdown s.fd_ ∈ cleanupEffects env s ∧
        (if s.registered_ then Effect.unregisterFd s.fd_ true else Effect.closeFd s.fd_)
          ∈ cleanupEffects env s) ∧
      (os.wouldBlock →
        s.receive env os = (0, s) ∧ (s.receive env os).2.state_ = ST_OPEN)) := by
  constructor
  · intro h
    simp [TcpSocket.receive, h]
  · intro h_ready h_tls h_fd
    obtain ⟨p1, p2, p3⟩ := TcpSocket.plain_path env s h_ready h_tls h_fd
    have h_open := TcpSocket.isReady_open env s h_ready
    refine ⟨?_, ?_, ?_⟩
    · intro h
      have hr := TcpSocket.ioResult_pos os h
      have h3 : ¬ os.io_ret < 0 := by omega
      have he : s.receive env os = (os.io_ret, s) := by
        simp only [TcpSocket.receive, p1, p2, p3, hr, h3, if_false, Bool.false_eq_true]
      rw [he]
      exact ⟨rfl, h_open⟩
    · intro h
      have hr : TcpSocket.ioResult os = -1 := by simp [TcpSocket.ioResult, h]
      have he : s.receive env os = (-1, (TcpSocket.cleanup env s).setState ST_CLOSED) := by
        simp only [TcpSocket.receive, p1, p2, p3, hr, if_false, Bool.false_eq_true]
        simp
      rw [he]
      refine ⟨rfl, by simp, by simp, by simp [h_fd], by simp, ?_, ?_⟩ <;>
        simp [cleanupEffects, h_fd]
    · intro h
      have hr := TcpSocket.ioResult_wouldBlock os h
      have he : s.receive env os = (0, s) := by
        simp only [TcpSocket.receive, p1, p2, p3, hr, if_false, Bool.false_eq_true,
          lt_self_iff_false]
      rw [he]
      exact ⟨rfl, h_open⟩

/-- C12, witness: `receive` on a fresh socket, which is not ready, and on an open socket
holding descriptor 7 when `recv` gives one byte, finds the peer closed, or
would block. -/
theorem C12_receive_witness :
    freshSocket.receive envPlain osOk = (0, freshSocket) ∧
    (openSocket.receive envPlain osOk = (1, openSocket) ∧
      (openSocket.receive envPlain osOk).2.state_ = ST_OPEN) ∧
    ((openSocket.receive envPlain osPeerClosed).1 = -1 ∧
      (openSocket.receive envPlain osPeerClosed).2.state_ = ST_CLOSED ∧
      (openSocket.receive envPlain osPeerClosed).2.fd_ = INVALID_FD ∧
      (openSocket.receive envPlain osPeerClosed).2.trace =
        [Effect.registerFd 7 7, Effect.shutdown 7, Effect.unregisterFd 7 true]) ∧
    (openSocket.receive envPlain osWouldBlock = (0, openSocket) ∧
      (openSocket.receive envPlain osWouldBlock).2.state_ = ST_OPEN) :=
  ⟨(C12_receive envPlain freshSocket osOk).1 (by decide),
   ((C12_receive envPlain openSocket osOk).2 (by decide) (by decide) (by decide)).1
     (by decide),
   ⟨by decide, by decide, by decide, by decide⟩,
   ((C12_receive envPlain openSocket osWouldBlock).2 (by decide) (by decide)
     (by decide)).2.2 (by decide)⟩

/-- C13: in any state `detachFd` returns NOERR and hands out the descriptor the socket
held; the socket is left CLOSED, without descriptor and not registered; the
only effects are `unregisterFd(fd, false)`, made exactly when the socket was
registered, and the closing of a TLS handler; no descriptor is closed or shut
down. -/
theorem C13_detachFd (env : Env) (s : TcpSocket) :
    (s.detachFd env).1 = KUMA_ERROR_NOERR ∧
    (s.detachFd env).2.1 = s.fd_ ∧
    (s.detachFd env).2.2.fd_ = INVALID_FD ∧
    (s.detachFd env).2.2.registered_ = false ∧
    (s.detachFd env).2.2.state_ = ST_CLOSED ∧
    (s.detachFd env).2.2.trace = s.trace ++ detachEffects env s ∧
    (Effect.unregisterFd s.fd_ false ∈ detachEffects env s ↔ s.registered_ = true) ∧
    (∀ fd : Int, (detachEffects env s).filter (Effect.closes fd) = []) := by
  obtain ⟨fd, st, reg, fl, ssl, c1, c2, c3, c4, d, tr⟩ := s
  refine ⟨rfl, rfl, ?_, ?_, ?_, ?_, ?_, ?_⟩
  · simp [TcpSocket.detachFd]
  · cases reg <;> simp [TcpSocket.detachFd, TcpSocket.emit]
  · simp [TcpSocket.detachFd]
  · cases reg <;>
      simp [TcpSocket.detachFd, TcpSocket.emit, detachEffects, cleanupEffects]
  · cases reg <;> simp [detachEffects]
  · intro fd2
    by_cases h1 : env.has_openssl = true ∧ ssl.isSome = true <;> cases reg <;>
      simp [detachEffects, h1, Effect.closes, List.filter]

/-- C14: `close` returns NOERR and leaves the socket CLOSED and without descriptor; a
descriptor held is shut down for reading and then closed once, through
`unregisterFd(fd, true)` when the socket was registered and `closeFd`
otherwise; a second `close` returns NOERR and leaves the socket, and with it
the trace of effects, unchanged. -/
theorem C14_close_idempotent (env : Env) (s : TcpSocket) :
    (s.close env).1 = KUMA_ERROR_NOERR ∧
    (s.close env).2.state_ = ST_CLOSED ∧
    (s.close env).2.fd_ = INVALID_FD ∧
    (s.close env).2.trace = s.trace ++ cleanupEffects env s ∧
    (cleanupEffects env s).filter (Effect.closes s.fd_) =
      (if s.fd_ ≠ INVALID_FD then
        [Effect.shutdown s.fd_,
         if s.registered_ then Effect.unregisterFd s.fd_ true else Effect.closeFd s.fd_]
       else []) ∧
    TcpSocket.close env (s.close env).2 = (KUMA_ERROR_NOERR, (s.close env).2) := by
  refine ⟨rfl, by simp [TcpSocket.close], by simp [TcpSocket.close],
    by simp [TcpSocket.close], ?_, ?_⟩
  · obtain ⟨fd, st, reg, fl, ssl, c1, c2, c3, c4, d, tr⟩ := s
    by_cases h1 : env.has_openssl = true ∧ ssl.isSome = true <;>
      by_cases h2 : fd = INVALID_FD <;> cases reg <;>
      simp [cleanupEffects, h1, h2, Effect.closes, List.filter]
  · simp only [TcpSocket.close]
    rw [TcpSocket.cleanup_eq env s]
    rw [TcpSocket.cleanup_eq]
    obtain ⟨fd, st, reg, fl, ssl, c1, c2, c3, c4, d, tr⟩ := s
    by_cases h1 : env.has_openssl = true <;>
      simp [TcpSocket.setState, cleanupEffects, h1]

namespace TcpSocket

/-! ### What the callbacks run by `ioReady` leave alone -/

theorem cleanup_flags (env : Env) (s : TcpSocket) : (cleanup env s).flags_ = s.flags_ := by
  rw [cleanup_eq]

theorem reCall_flags (env : Env) (s : TcpSocket) (c : ReCall) (h : s.state_ ≠ ST_IDLE) :
    (reCall env s c).flags_ = s.flags_ := by
  cases c with
  | bind os => simp [reCall, bind, h]
  | connect flags timeout os => simp [reCall, connect, h]
  | attachFd fd flags os => simp [reCall, attachFd, h]
  | detachFd =>
    simp only [reCall, detachFd]
    split_ifs <;> simp [setState, cleanup_flags, emit]
  | send length os =>
    simp only [reCall, send]
    split_ifs <;> simp [setState, cleanup_flags, emit]
  | sendv count os =>
    simp only [reCall, sendv]
    split_ifs <;> simp [setState, cleanup_flags, emit]
  | receive os =>
    simp only [reCall, receive]
    split_ifs <;> simp [setState, cleanup_flags, emit]
  | close => simp [reCall, close, setState, cleanup_flags]

theorem foldl_reCall_flags (env : Env) (l : List ReCall) (s : TcpSocket)
    (h : s.state_ ≠ ST_IDLE) : (l.foldl (reCall env) s).flags_ = s.flags_ := by
  induction l generalizing s with
  | nil => rfl
  | cons c t ih =>
    simp only [List.foldl_cons]
    rw [ih _ (not_idle_of_rank h (reCall_rank env s c)), reCall_flags env s c h]

/-- A user callback run on a socket that has left IDLE changes neither the callbacks
installed nor the flags, and invokes no callback. -/
theorem runScript_installed (env : Env) (s : TcpSocket) (sc : Script)
    (h : s.state_ ≠ ST_IDLE) :
    sameInstalled s (runScript env s sc) ∧ (runScript env s sc).callbacks = s.callbacks := by
  obtain ⟨a1, a2, a3, -, a5⟩ := foldl_reCall_same env sc.calls s
  have af := foldl_reCall_flags env sc.calls s h
  simp only [runScript]
  split_ifs
  · obtain ⟨b1, b2, b3, -, b5⟩ := cleanup_same env
      { sc.calls.foldl (reCall env) s with destroyed := true }
    have bf := cleanup_flags env { sc.calls.foldl (reCall env) s with destroyed := true }
    exact ⟨⟨b1.trans a1, b2.trans a2, b3.trans a3, bf.trans af⟩, b5.trans a5⟩
  · exact ⟨⟨a1, a2, a3, af⟩, a5⟩

theorem callbacks_emit_cb (s : TcpSocket) (e : Effect) (h : e.isCallback = true) :
    (s.emit e).callbacks = s.callbacks ++ [e] := by
  simp [callbacks, List.filter_append, h]

/-- `onReceive` invokes the read callback, and only it, if one is installed and the
socket is ready. -/
theorem onReceive_effect (env : Env) (s : TcpSocket) (err : KumaError) :
    sameInstalled s (onReceive env s err) ∧
    (onReceive env s err).callbacks = s.callbacks ++
      (if s.cb_read_.isSome ∧ isReady env s = true then [Effect.cb_read err] else []) := by
  simp only [onReceive]
  split
  · rename_i cb hcb
    by_cases hr : isReady env s = true
    · have ho : (s.emit (Effect.cb_read err)).state_ ≠ ST_IDLE := by
        simp [isReady_open env s hr]
      obtain ⟨k1, k2⟩ := runScript_installed env (s.emit (Effect.cb_read err)) (cb err) ho
      simp only [hr, if_true, hcb, Option.isSome_some, and_self]
      exact ⟨k1, by rw [k2, callbacks_emit_cb s (Effect.cb_read err) rfl]⟩
    · simp [hr, sameInstalled]
  · rename_i hcb
    simp [hcb, sameInstalled]

/-- `onSend` invokes the write callback, and only it, if one is installed and the socket
is ready. -/
theorem onSend_effect (env : Env) (s : TcpSocket) (err : KumaError) :
    (onSend env s err).callbacks = s.callbacks ++
      (if s.cb_write_.isSome ∧ isReady env s = true then [Effect.cb_write err] else []) := by
  simp only [onSend]
  generalize hs1 : (if env.poll_type = PollType.POLL_TYPE_POLL then
      s.emit (Effect.updateFd s.fd_ (KUMA_EV_READ ||| KUMA_EV_ERROR)) else s) = s1
  have h1 : s1.callbacks = s.callbacks ∧ s1.cb_write_ = s.cb_write_ ∧
      isReady env s1 = isReady env s := by
    rw [← hs1]
    split_ifs
    · exact ⟨callbacks_emit s _ rfl, rfl, rfl⟩
    · exact ⟨rfl, rfl, rfl⟩
  obtain ⟨e1, e2, e3⟩ := h1
  rw [← e1, ← e2, ← e3]
  split
  · rename_i cb hcb
    by_cases hr : isReady env s1 = true
    · have ho : (s1.emit (Effect.cb_write err)).state_ ≠ ST_IDLE := by
        simp [isReady_open env s1 hr]
      obtain ⟨-, k2⟩ := runScript_installed env (s1.emit (Effect.cb_write err)) (cb err) ho
      simp only [hr, if_true, hcb, Option.isSome_some, and_self]
      rw [k2, callbacks_emit_cb s1 (Effect.cb_write err) rfl]
    · simp only [hr, if_false, and_false, List.append_nil, Bool.false_eq_true]
  · rename_i hcb
    simp only [hcb, Option.isSome_none, Bool.false_eq_true, false_and, if_false,
      List.append_nil]

/-- The socket after the read step of `ioReady`: the read callback has been invoked if
the READ bit is set and one is installed, and nothing else has changed among
the callbacks and the flags. -/
theorem afterRead_effect (env : Env) (s : TcpSocket) (events : Nat)
    (h_ready : isReady env s = true) :
    sameInstalled s (s.afterRead env events) ∧
    (s.afterRead env events).callbacks = s.callbacks ++
      (if hasEvent events KUMA_EV_READ = true ∧ s.cb_read_.isSome = true
       then [Effect.cb_read KUMA_ERROR_NOERR] else []) := by
  obtain ⟨k1, k2⟩ := onReceive_effect env s KUMA_ERROR_NOERR
  simp only [afterRead]
  by_cases hr : hasEvent events KUMA_EV_READ = true
  · simp only [hr, if_true, true_and]
    refine ⟨k1, ?_⟩
    rw [k2]
    simp [h_ready]
  · simp [hr, sameInstalled]

/-- On an OPEN socket without TLS, `ioReady` is the read step followed by `onClose` for
the ERROR bit, and otherwise by `onSend` for the WRITE bit, as long as the read
callback has left the socket OPEN and alive. -/
theorem ioReady_plain_open (env : Env) (s : TcpSocket) (events : Nat) (os : Os)
    (h_open : s.state_ = ST_OPEN) (h_plain : s.plain)
    (h_read : (s.afterRead env events).state_ = ST_OPEN ∧
      (s.afterRead env events).destroyed = false) :
    s.ioReady env events os =
      (if hasEvent events KUMA_EV_ERROR = true then
        onClose env (s.afterRead env events) KUMA_ERROR_POLLERR
       else if hasEvent events KUMA_EV_WRITE = true then
        onSend env (s.afterRead env events) KUMA_ERROR_NOERR
       else s.afterRead env events) := by
  have hns : ¬ (env.has_openssl = true ∧ s.ssl_handler_ = some SslState.SSL_HANDSHAKE) := by
    rintro ⟨-, h⟩
    rw [h_plain.2] at h
    exact Option.noConfusion h
  simp only [ioReady, getState_eq, h_open, hns, if_false, ioReadyOpen]
  simp only [afterRead] at h_read ⊢
  simp [h_read.1, h_read.2]

/-! ### Effects are only ever added to the trace -/

theorem extendsTrace_refl (s : TcpSocket) : extendsTrace s s := ⟨[], by simp⟩

theorem extendsTrace_trans {s t u : TcpSocket} (h1 : extendsTrace s t)
    (h2 : extendsTrace t u) : extendsTrace s u := by
  obtain ⟨l1, e1⟩ := h1
  obtain ⟨l2, e2⟩ := h2
  exact ⟨l1 ++ l2, by rw [e2, e1, List.append_assoc]⟩

theorem extendsTrace_emit (s : TcpSocket) (e : Effect) : extendsTrace s (s.emit e) :=
  ⟨[e], rfl⟩

theorem extendsTrace_cleanup (env : Env) (s : TcpSocket) : extendsTrace s (cleanup env s) :=
  ⟨cleanupEffects env s, cleanup_trace env s⟩

theorem extendsTrace_closed (env : Env) (s : TcpSocket) :
    extendsTrace s ((cleanup env s).setState ST_CLOSED) :=
  ⟨cleanupEffects env s, cleanup_trace env s⟩

theorem extendsTrace_startSsl (env : Env) (s : TcpSocket) (is_server : Bool) (os : Os) :
    extendsTrace s (startSslHandshake env s is_server os).2 := by
  obtain ⟨fd, st, reg, fl, ssl, c1, c2, c3, c4, d, tr⟩ := s
  simp only [startSslHandshake, emit]
  split_ifs
  all_goals first
    | exact ⟨[], (List.append_nil _).symm⟩
    | exact ⟨[Effect.ssl_close], rfl⟩

theorem extendsTrace_reCall (env : Env) (s : TcpSocket) (c : ReCall) :
    extendsTrace s (reCall env s c) := by
  cases c with
  | bind os =>
    simp only [reCall, bind]
    split_ifs
    all_goals first
      | exact extendsTrace_refl s
      | exact extendsTrace_cleanup env s
  | connect flags timeout os =>
    simp only [reCall, connect, connect_i, registerNetwork]
    split_ifs
    all_goals first
      | exact extendsTrace_refl s
      | exact extendsTrace_closed env _
      | exact ⟨[Effect.registerFd _ KUMA_EV_NETWORK], rfl⟩
  | attachFd fd flags os =>
    simp only [reCall, attachFd, registerNetwork]
    split_ifs
    · exact extendsTrace_refl s
    · exact extendsTrace_refl s
    · exact extendsTrace_startSsl env ({ s with fd_ := fd, flags_ := flags }.setState ST_OPEN)
        true os
    · exact extendsTrace_trans
        (extendsTrace_startSsl env ({ s with fd_ := fd, flags_ := flags }.setState ST_OPEN)
          true os) ⟨[Effect.registerFd _ KUMA_EV_NETWORK], rfl⟩
    · exact ⟨[Effect.registerFd _ KUMA_EV_NETWORK], rfl⟩
  | detachFd =>
    simp only [reCall, detachFd]
    split_ifs
    · exact extendsTrace_trans (s := s)
        (t := { s with fd_ := INVALID_FD, registered_ := false }.emit
          (Effect.unregisterFd s.fd_ false))
        ⟨[Effect.unregisterFd s.fd_ false], rfl⟩ (extendsTrace_closed env _)
    · exact extendsTrace_closed env { s with fd_ := INVALID_FD }
  | send length os =>
    simp only [reCall, send]
    split_ifs
    all_goals first
      | exact extendsTrace_refl s
      | exact extendsTrace_closed env s
      | exact extendsTrace_emit s _
  | sendv count os =>
    simp only [reCall, sendv]
    split_ifs
    all_goals first
      | exact extendsTrace_refl s
      | exact extendsTrace_closed env s
      | exact extendsTrace_emit s _
  | receive os =>
    simp only [reCall, receive]
    split_ifs
    all_goals first
      | exact extendsTrace_refl s
      | exact extendsTrace_closed env s
  | close => exact extendsTrace_closed env s

theorem extendsTrace_foldl (env : Env) (l : List ReCall) (s : TcpSocket) :
    extendsTrace s (l.foldl (reCall env) s) := by
  induction l generalizing s with
  | nil => exact extendsTrace_refl s
  | cons c t ih => exact extendsTrace_trans (extendsTrace_reCall env s c) (ih _)

/-- A user callback only adds effects to the trace. -/
theorem extendsTrace_runScript (env : Env) (s : TcpSocket) (sc : Script) :
    extendsTrace s (runScript env s sc) := by
  simp only [runScript]
  split_ifs
  · exact extendsTrace_trans (extendsTrace_foldl env sc.calls s)
      (extendsTrace_cleanup env { sc.calls.foldl (reCall env) s with destroyed := true })
  · exact extendsTrace_foldl env sc.calls s

end TcpSocket

namespace TcpSocket

/-! ### The error callback is invoked at most once -/

theorem errorCalls_append {s t : TcpSocket} {l : List Effect}
    (h : t.callbacks = s.callbacks ++ l) :
    t.errorCalls = s.errorCalls ++ l.filter Effect.isErrorCb := by
  simp only [errorCalls]
  rw [errorCbs_eq t, errorCbs_eq s, h, List.filter_append]

theorem errorCalls_same {s t : TcpSocket} (h : t.callbacks = s.callbacks) :
    t.errorCalls = s.errorCalls := by
  have := errorCalls_append (s := s) (t := t) (l := []) (by simpa using h)
  simpa using this

theorem errorStep_refl (s : TcpSocket) : errorStep s s := Or.inl rfl

theorem errorStep_of_same {s t u : TcpSocket} (h1 : t.errorCalls = s.errorCalls)
    (h2 : errorStep t u) : errorStep s u := by
  unfold errorStep at *
  rw [← h1]
  exact h2

theorem errorStep_then_same {s t u : TcpSocket} (h1 : errorStep s t)
    (h2 : u.errorCalls = t.errorCalls) (h3 : t.state_ = ST_CLOSED → u.state_ = ST_CLOSED) :
    errorStep s u := by
  unfold errorStep at *
  rw [h2]
  rcases h1 with h | ⟨h, hc⟩
  · exact Or.inl h
  · exact Or.inr ⟨h, h3 hc⟩

theorem onReceive_errorCalls (env : Env) (s : TcpSocket) (err : KumaError) :
    (onReceive env s err).errorCalls = s.errorCalls := by
  have h := errorCalls_append (onReceive_effect env s err).2
  rw [h]
  split_ifs <;> simp [Effect.isErrorCb]

theorem onSend_errorCalls (env : Env) (s : TcpSocket) (err : KumaError) :
    (onSend env s err).errorCalls = s.errorCalls := by
  have h := errorCalls_append (onSend_effect env s err)
  rw [h]
  split_ifs <;> simp [Effect.isErrorCb]

theorem onClose_errorStep (env : Env) (s : TcpSocket) (err : KumaError) :
    errorStep s (onClose env s err) := by
  obtain ⟨h1, h2⟩ := onClose_effect env s err
  have h := errorCalls_append h2
  unfold errorStep
  by_cases hc : s.cb_error_.isSome = true
  · right
    refine ⟨⟨Effect.cb_error err, ?_⟩, h1⟩
    rw [h]
    simp [hc, Effect.isErrorCb]
  · left
    rw [h]
    simp [hc]

theorem connectScript_errorCalls (env : Env) (s : TcpSocket) (err : KumaError)
    (cb : Callback) :
    (runScript env ({ s with cb_connect_ := none }.emit (Effect.cb_connect err))
      (cb err)).errorCalls = s.errorCalls := by
  obtain ⟨k1, -⟩ := runScript_callbacks env
    ({ s with cb_connect_ := none }.emit (Effect.cb_connect err)) (cb err)
  have h : (runScript env ({ s with cb_connect_ := none }.emit (Effect.cb_connect err))
      (cb err)).callbacks = s.callbacks ++ [Effect.cb_connect err] := by
    rw [k1]
    exact callbacks_emit_cb { s with cb_connect_ := none } (Effect.cb_connect err) rfl
  rw [errorCalls_append h]
  simp [Effect.isErrorCb]

theorem onConnectFinish_errorCalls (env : Env) (s : TcpSocket) (err : KumaError) :
    (onConnectFinish env s err).errorCalls = s.errorCalls := by
  have h0 : (if err ≠ KUMA_ERROR_NOERR then (cleanup env s).setState ST_CLOSED
      else s).errorCalls = s.errorCalls := by
    split_ifs
    · exact errorCalls_same (closed_same env s).2.2.2.2
    · rfl
  simp only [onConnectFinish]
  split
  · rw [connectScript_errorCalls]
    exact h0
  · exact h0

theorem onConnect_errorCalls (env : Env) (s : TcpSocket) (err : KumaError) (os : Os) :
    (onConnect env s err os).errorCalls = s.errorCalls := by
  have hs : (startSslHandshake env (s.setState ST_OPEN) false os).2.errorCalls
      = s.errorCalls :=
    errorCalls_same (startSslHandshake_same env (s.setState ST_OPEN) false os).2.2.2.2
  simp only [onConnect]
  split_ifs
  · exact hs
  · rw [onConnectFinish_errorCalls]; exact hs
  · rw [onConnectFinish_errorCalls]; rfl
  · exact onConnectFinish_errorCalls env s err

theorem ioReadyOpen_errorStep (env : Env) (s : TcpSocket) (events : Nat) :
    errorStep s (ioReadyOpen env s events) := by
  simp only [ioReadyOpen]
  generalize hs1 : (if hasEvent events KUMA_EV_READ = true then
      onReceive env s KUMA_ERROR_NOERR else s) = s1
  have h1 : s1.errorCalls = s.errorCalls := by
    rw [← hs1]
    split_ifs
    · exact onReceive_errorCalls env s _
    · rfl
  split_ifs
  · exact Or.inl h1
  · exact errorStep_of_same h1 (onClose_errorStep env s1 _)
  · exact Or.inl ((onSend_errorCalls env s1 _).trans h1)
  · exact Or.inl h1

/-- The TLS handshake step of `ioReady` closes the socket through `onClose` at most
once, and not at all when `ioReady` goes on after it. -/
theorem ioReadyHandshakeDone_errorStep (env : Env) (s : TcpSocket) (events : Nat)
    (err : KumaError) :
    errorStep s (ioReadyHandshakeDone env s events err).1 ∧
    ((ioReadyHandshakeDone env s events err).2.2 = false →
      (ioReadyHandshakeDone env s events err).1.errorCalls = s.errorCalls) := by
  simp only [ioReadyHandshakeDone]
  split
  · have h := connectScript_errorCalls env s err ‹Callback›
    exact ⟨Or.inl h, fun _ => h⟩
  · split_ifs
    · exact ⟨onClose_errorStep env s err, fun h => False.elim h⟩
    · exact ⟨Or.inl rfl, fun _ => rfl⟩

theorem ioReadyHandshake_errorStep (env : Env) (s : TcpSocket) (events : Nat) (os : Os) :
    errorStep s (ioReadyHandshake env s events os).1 ∧
    ((ioReadyHandshake env s events os).2.2 = false →
      (ioReadyHandshake env s events os).1.errorCalls = s.errorCalls) := by
  simp only [ioReadyHandshake]
  split_ifs
  · exact ioReadyHandshakeDone_errorStep env s events _
  · exact ioReadyHandshakeDone_errorStep env
      { s with ssl_handler_ := some os.ssl_handshake } events _
  · exact ⟨Or.inl rfl, fun _ => rfl⟩
  · exact ioReadyHandshakeDone_errorStep env
      { s with ssl_handler_ := some os.ssl_handshake } events _

theorem ioReady_errorStep (env : Env) (s : TcpSocket) (events : Nat) (os : Os) :
    errorStep s (ioReady env s events os) := by
  simp only [ioReady, getState_eq]
  split
  · split_ifs
    · exact Or.inl (onConnect_errorCalls env s _ os)
    · exact Or.inl (onConnect_errorCalls env s _ os)
    · exact Or.inl ((onReceive_errorCalls env _ _).trans (onConnect_errorCalls env s _ os))
    · exact Or.inl (onConnect_errorCalls env s _ os)
  · obtain ⟨h1, h2⟩ := ioReadyHandshake_errorStep env s events os
    split_ifs with ha hb
    · exact h1
    · have hb2 : (ioReadyHandshake env s events os).2.2 = false := by
        simpa using hb
      exact errorStep_of_same (h2 hb2) (ioReadyOpen_errorStep env _ _)
    · exact ioReadyOpen_errorStep env s events
  · exact errorStep_refl s

/-- In state CLOSED `ioReady` does nothing. -/
theorem ioReady_closed (env : Env) (s : TcpSocket) (events : Nat) (os : Os)
    (h : s.state_ = ST_CLOSED) : ioReady env s events os = s := by
  simp [ioReady, h]

theorem call_errorOnce (env : Env) (s : TcpSocket) (c : Call) (h : errorOnce s) :
    errorOnce (s.call env c) := by
  have hrank := call_rank env s c
  have hstep : errorStep s (s.call env c) := by
    cases c with
    | bind os => exact Or.inl (errorCalls_same (bind_same env s os).2.2.2.2)
    | connect cb flags timeout os =>
      exact Or.inl (errorCalls_same (connect_same env s cb flags timeout os).2.2.2.2)
    | attachFd fd flags os =>
      exact Or.inl (errorCalls_same (attachFd_same env s fd flags os).2.2.2.2)
    | detachFd => exact Or.inl (errorCalls_same (detachFd_same env s).2.2.2.2)
    | send length os => exact Or.inl (errorCalls_same (send_same env s length os).2.2.2.2)
    | sendv count os => exact Or.inl (errorCalls_same (sendv_same env s count os).2.2.2.2)
    | receive os => exact Or.inl (errorCalls_same (receive_same env s os).2.2.2.2)
    | close => exact Or.inl (errorCalls_same (close_same env s).2.2.2.2)
    | ioReady events os => exact ioReady_errorStep env s events os
  obtain ⟨h1, h2⟩ := h
  by_cases hne : s.errorCalls = []
  · rcases hstep with hs | ⟨⟨e, hs⟩, hc⟩
    · rw [hne] at hs
      exact ⟨by simp [hs], fun hn => absurd hs hn⟩
    · rw [hne] at hs
      exact ⟨by simp [hs], fun _ => hc⟩
  · have hclosed := h2 hne
    have hc2 := closed_of_rank hclosed hrank
    have hsame : (s.call env c).errorCalls = s.errorCalls := by
      rcases hstep with hs | ⟨⟨e, hs⟩, -⟩
      · exact hs
      · cases c with
        | ioReady events os =>
          simp only [TcpSocket.call, ioReady_closed env s events os hclosed]
        | bind os => exact errorCalls_same (bind_same env s os).2.2.2.2
        | connect cb flags timeout os =>
          exact errorCalls_same (connect_same env s cb flags timeout os).2.2.2.2
        | attachFd fd flags os =>
          exact errorCalls_same (attachFd_same env s fd flags os).2.2.2.2
        | detachFd => exact errorCalls_same (detachFd_same env s).2.2.2.2
        | send length os => exact errorCalls_same (send_same env s length os).2.2.2.2
        | sendv count os => exact errorCalls_same (sendv_same env s count os).2.2.2.2
        | receive os => exact errorCalls_same (receive_same env s os).2.2.2.2
        | close => exact errorCalls_same (close_same env s).2.2.2.2
    exact ⟨by rw [hsame]; exact h1, fun _ => hc2⟩

theorem run_errorOnce (env : Env) (calls : List Call) (s : TcpSocket) (h : errorOnce s) :
    errorOnce (s.run env calls) := by
  induction calls generalizing s with
  | nil => exact h
  | cons c t ih =>
    simp only [TcpSocket.run, List.foldl_cons]
    exact ih _ (call_errorOnce env s c h)

theorem run_closed (env : Env) (calls : List Call) (s : TcpSocket)
    (h : s.state_ = ST_CLOSED) : (s.run env calls).state_ = ST_CLOSED := by
  induction calls generalizing s with
  | nil => exact h
  | cons c t ih =>
    simp only [TcpSocket.run, List.foldl_cons]
    exact ih _ (closed_of_rank h (call_rank env s c))

end TcpSocket

/-- C15: over any sequence of operations and `ioReady` events applied to a socket from
its construction, the error callback is invoked at most once; and once the
socket is CLOSED, whatever operations follow, an `ioReady` event leaves the
socket as it is: it invokes no callback and changes nothing. -/
theorem C15_error_callback_once (env : Env) (cb_read cb_write cb_error : Option Callback)
    (calls more : List Call) (events : Nat) (os : Os) :
    (((TcpSocket.init cb_read cb_write cb_error).run env calls).trace.filter
      Effect.isErrorCb).length ≤ 1 ∧
    (((TcpSocket.init cb_read cb_write cb_error).run env calls).state_ = ST_CLOSED →
      TcpSocket.ioReady env
        (((TcpSocket.init cb_read cb_write cb_error).run env calls).run env more) events os
        = ((TcpSocket.init cb_read cb_write cb_error).run env calls).run env more) := by
  constructor
  · have h0 : (TcpSocket.init cb_read cb_write cb_error).errorOnce := by
      simp [TcpSocket.errorOnce, TcpSocket.errorCalls, TcpSocket.init]
    exact (TcpSocket.run_errorOnce env calls _ h0).1
  · intro h
    exact TcpSocket.ioReady_closed env _ events os (TcpSocket.run_closed env more _ h)

/-- C15, witness: a socket is attached to descriptor 7, meets an event with the READ and
ERROR bits, which invokes the error callback and closes it, then an event with
the ERROR bit: the error callback has been invoked once, and a further event
with all bits changes nothing. -/
theorem C15_error_callback_once_witness :
    ((freshSocket.run envPlain
        [Call.attachFd 7 0 osOk, Call.ioReady 5 osOk, Call.ioReady 4 osOk]).trace.filter
      Effect.isErrorCb) = [Effect.cb_error KUMA_ERROR_POLLERR] ∧
    ((freshSocket.run envPlain [Call.attachFd 7 0 osOk, Call.ioReady 5 osOk]).trace.filter
      Effect.isErrorCb).length ≤ 1 ∧
    TcpSocket.ioReady envPlain
        ((freshSocket.run envPlain [Call.attachFd 7 0 osOk, Call.ioReady 5 osOk]).run envPlain
          [Call.ioReady 4 osOk]) 7 osOk
      = (freshSocket.run envPlain [Call.attachFd 7 0 osOk, Call.ioReady 5 osOk]).run envPlain
          [Call.ioReady 4 osOk] :=
  ⟨by decide,
   (C15_error_callback_once envPlain (some cbIdle) (some cbIdle) (some cbIdle)
      [Call.attachFd 7 0 osOk, Call.ioReady 5 osOk] [Call.ioReady 4 osOk] 7 osOk).1,
   (C15_error_callback_once envPlain (some cbIdle) (some cbIdle) (some cbIdle)
      [Call.attachFd 7 0 osOk, Call.ioReady 5 osOk] [Call.ioReady 4 osOk] 7 osOk).2
      (by decide)⟩

end kuma
